import Mathlib

/-!
# VulkanTest: device lifecycle and frame synchronisation of `ProjectVulkan/main.cpp`

A shallow embedding of the program in `src/ProjectVulkan/main.cpp`.

The program is sequential and talks to two external libraries (GLFW and the
Vulkan driver).  Every function of the program is embedded as a Lean function
that takes

* the *environment* `Env`: what the external libraries answer to each call
  (result codes, the handle values found in out-parameters, the enumerated
  layers, extensions and adapters, and one `FrameEnv` per loop iteration during
  which the window stays open), and
* the current value of the global variables `Globals`,

and returns an `Out`: the list of calls it issued, in order, how it ended
(returned to its caller, called `exit`, or threw), and the new globals.

Output to `std::cout` / `std::cerr` is not part of the embedding.
-/

namespace VulkanTest

/-! ## Handles, result codes and header constants -/

/-- A Vulkan or GLFW handle value. -/
abbrev Handle := Nat

/-- A `VkResult` code. -/
abbrev VkResult := Int

/-- The null handle of `vulkan_core.h`. -/
def VK_NULL_HANDLE : Handle := 0

/-- The success code of `vulkan_core.h`. -/
def VK_SUCCESS : VkResult := 0

/-- The largest `uint64_t`, from `<cstdint>`. -/
def UINT64_MAX : Nat := 18446744073709551615

/-- Fence creation flag of `vulkan_core.h`. -/
def VK_FENCE_CREATE_SIGNALED_BIT : Nat := 1

/-- Pipeline stage flag of `vulkan_core.h`. -/
def VK_PIPELINE_STAGE_COLOR_ATTACHMENT_OUTPUT_BIT : Nat := 1024

/-- Command buffer usage flag of `vulkan_core.h`. -/
def VK_COMMAND_BUFFER_USAGE_SIMULTANEOUS_USE_BIT : Nat := 4

/-- Format code of `vulkan_core.h`. -/
def VK_FORMAT_R32G32B32_SFLOAT : Nat := 106

/-- Vertex input rate of `vulkan_core.h`. -/
def VK_VERTEX_INPUT_RATE_VERTEX : Nat := 0

/-- Extension name of `vulkan_core.h`. -/
def VK_KHR_SURFACE_EXTENSION_NAME : String := "VK_KHR_surface"

/-- Extension name of `vulkan_core.h`. -/
def VK_EXT_DEBUG_UTILS_EXTENSION_NAME : String := "VK_EXT_debug_utils"

/-- Extension name of `vulkan_core.h`. -/
def VK_KHR_SWAPCHAIN_EXTENSION_NAME : String := "VK_KHR_swapchain"

/-- The global `validationLayers` (main.cpp:18). -/
def validationLayers : List String := ["VK_LAYER_KHRONOS_validation"]

/-- The global `vertices` (main.cpp:406): nine floats, kept as (numerator, denominator). -/
def vertices : List (Int × Nat) :=
  [(0, 1), (1, 2), (0, 1),
   (-1, 2), (-1, 2), (0, 1),
   (1, 2), (-1, 2), (0, 1)]

/-- The value of `sizeof(float)`. -/
def sizeofFloat : Nat := 4

/-! ## The data handed to the driver -/

/-- The fields of `VkInstanceCreateInfo` that `createInstance` sets. -/
structure InstanceCreateInfo where
  enabledLayerCount : Nat
  ppEnabledLayerNames : List String
  ppEnabledExtensionNames : List String
deriving DecidableEq, Repr

/-- The fields of `VkDeviceCreateInfo` that `createLogicalDevice` sets. -/
structure DeviceCreateInfo where
  queueFamilyIndex : Nat
  queueCount : Nat
  ppEnabledExtensionNames : List String
  enabledLayerCount : Nat
deriving DecidableEq, Repr

/-- A `VkVertexInputBindingDescription`. -/
structure VertexInputBindingDescription where
  binding : Nat
  stride : Nat
  inputRate : Nat
deriving DecidableEq, Repr

/-- A `VkVertexInputAttributeDescription`. -/
structure VertexInputAttributeDescription where
  location : Nat
  binding : Nat
  format : Nat
  offset : Nat
deriving DecidableEq, Repr

/-- The vertex input state and the handles of the `VkGraphicsPipelineCreateInfo`
built by `createGraphicsPipeline`. -/
structure GraphicsPipelineCreateInfo where
  stages : List Handle
  bindingDescriptions : List VertexInputBindingDescription
  attributeDescriptions : List VertexInputAttributeDescription
  layout : Handle
  renderPass : Handle
deriving DecidableEq, Repr

/-- The `VkSubmitInfo` of `drawFrame`; each array is the list of its `count` elements. -/
structure SubmitInfo where
  pWaitSemaphores : List Handle
  pWaitDstStageMask : List Nat
  pCommandBuffers : List Handle
  pSignalSemaphores : List Handle
deriving DecidableEq, Repr

/-- The `VkPresentInfoKHR` of `drawFrame`. -/
structure PresentInfo where
  pWaitSemaphores : List Handle
  pSwapchains : List Handle
  pImageIndices : List Nat
deriving DecidableEq, Repr

/-- The functions of the program that `main` calls. -/
inductive Fn where
  | initWindow | createInstance | setupDebugMessenger | pickPhysicalDevice
  | createLogicalDevice | initSyncObjects | createRenderPass
  | createGraphicsPipeline | createVertexBuffer | recordCommandBuffer | drawFrame
deriving DecidableEq, Repr

/-- One call in the trace of the program: a call of `main` to one of the
program's own functions (`fn`), or a call to GLFW, the Vulkan driver or the
file system, with the arguments that matter. -/
inductive Call where
  | fn (f : Fn)
  | glfwInit
  | glfwWindowHint
  | glfwCreateWindow (width height : Nat)
  | glfwTerminate
  | glfwMakeContextCurrent (window : Handle)
  | glfwSwapInterval (interval : Nat)
  | glfwWindowShouldClose (window : Handle)
  | glfwPollEvents
  | glfwDestroyWindow (window : Handle)
  | vkEnumerateInstanceLayerProperties
  | vkEnumerateInstanceExtensionProperties
  | vkCreateInstance (info : InstanceCreateInfo)
  | vkGetInstanceProcAddr (inst : Handle) (name : String)
  | vkCreateDebugUtilsMessengerEXT (inst : Handle)
  | vkEnumeratePhysicalDevices (inst : Handle)
  | vkCreateDevice (physicalDevice : Handle) (info : DeviceCreateInfo)
  | vkGetDeviceQueue (device : Handle) (queueFamilyIndex queueIndex : Nat)
  | vkCreateSemaphore (device : Handle)
  | vkCreateFence (device : Handle) (flags : Nat)
  | vkCreateRenderPass (device : Handle)
  | vkCreatePipelineLayout (device : Handle)
  | ifstreamOpen (filePath : String)
  | vkCreateShaderModule (device : Handle)
  | vkCreateGraphicsPipelines (device : Handle) (info : GraphicsPipelineCreateInfo)
  | vkDestroyShaderModule (device : Handle) (shaderModule : Handle)
  | vkCreateBuffer (device : Handle) (size : Nat)
  | vkGetBufferMemoryRequirements (device : Handle) (buffer : Handle)
  | vkAllocateMemory (device : Handle) (allocationSize : Nat)
  | vkBindBufferMemory (device buffer memory : Handle) (memoryOffset : Nat)
  | vkBeginCommandBuffer (commandBuffer : Handle) (flags : Nat)
  | vkCmdBeginRenderPass (commandBuffer renderPass framebuffer : Handle)
  | vkCmdBindPipeline (commandBuffer pipeline : Handle)
  | vkCmdBindVertexBuffers (commandBuffer : Handle) (buffers : List Handle) (offsets : List Nat)
  | vkCmdDraw (commandBuffer : Handle) (vertexCount instanceCount firstVertex firstInstance : Nat)
  | vkCmdEndRenderPass (commandBuffer : Handle)
  | vkEndCommandBuffer (commandBuffer : Handle)
  | vkWaitForFences (device : Handle) (fences : List Handle) (waitAll : Bool) (timeout : Nat)
  | vkResetFences (device : Handle) (fences : List Handle)
  | vkAcquireNextImageKHR (device swapchain : Handle) (timeout : Nat) (semaphore fence : Handle)
  | vkQueueSubmit (queue : Handle) (submit : SubmitInfo) (fence : Handle)
  | vkQueuePresentKHR (queue : Handle) (present : PresentInfo)
  | vkDestroyPipeline (device pipeline : Handle)
  | vkDestroyPipelineLayout (device pipelineLayout : Handle)
  | vkDestroyRenderPass (device renderPass : Handle)
  | vkDestroyDevice (device : Handle)
  | vkDestroyDebugUtilsMessengerEXT (inst messenger : Handle)
  | vkDestroyInstance (inst : Handle)
  | vkDestroySemaphore (device semaphore : Handle)
  | vkDestroyFence (device fence : Handle)
  | vkDestroyWindowSurface (inst surface : Handle)
deriving Repr

/-- How the process ends. -/
inductive Exit where
  /-- The function `main` returned `code`. -/
  | returned (code : Int)
  /-- The call `exit(code)` was made. -/
  | exit (code : Int)
  /-- An exception was thrown; nothing in the program catches it.  The text is
  the message of a `std::runtime_error` of the program, or the type of an
  exception that the standard library throws. -/
  | uncaught (what : String)
deriving DecidableEq, Repr

/-- The global variables of main.cpp.  The identifiers `surface` and `swapChain`
are used by the program but declared nowhere in the file; they are part of the
environment instead. -/
structure Globals where
  vkInstance : Handle
  device : Handle
  physicalDevice : Handle
  graphicsQueue : Handle
  renderPass : Handle
  pipelineLayout : Handle
  graphicsPipeline : Handle
  debugMessenger : Handle
  presentQueue : Handle
  window : Handle
  commandBuffer : Handle
  vertexBuffer : Handle
  vertexBufferMemory : Handle
  framebuffer : Handle
  imageAvailableSemaphore : Handle
  renderFinishedSemaphore : Handle
  fence : Handle
deriving DecidableEq, Repr

/-- The globals at program start: static storage is zero-initialised. -/
def Globals.init : Globals :=
  { vkInstance := VK_NULL_HANDLE, device := VK_NULL_HANDLE, physicalDevice := VK_NULL_HANDLE,
    graphicsQueue := VK_NULL_HANDLE, renderPass := VK_NULL_HANDLE,
    pipelineLayout := VK_NULL_HANDLE, graphicsPipeline := VK_NULL_HANDLE,
    debugMessenger := VK_NULL_HANDLE, presentQueue := VK_NULL_HANDLE, window := VK_NULL_HANDLE,
    commandBuffer := VK_NULL_HANDLE, vertexBuffer := VK_NULL_HANDLE,
    vertexBufferMemory := VK_NULL_HANDLE, framebuffer := VK_NULL_HANDLE,
    imageAvailableSemaphore := VK_NULL_HANDLE, renderFinishedSemaphore := VK_NULL_HANDLE,
    fence := VK_NULL_HANDLE }

/-- The answer of the driver to a create call: the result code, and the handle
value found in the out-parameter after the call. -/
structure Reply where
  result : VkResult
  handle : Handle
deriving DecidableEq, Repr

/-- What the driver answers during one iteration of the main loop. -/
structure FrameEnv where
  vkWaitForFences : VkResult
  vkResetFences : VkResult
  vkAcquireNextImageKHR : VkResult
  /-- The content of the local `imageIndex` after the acquire call. -/
  imageIndex : Nat
  vkQueueSubmit : VkResult
  vkQueuePresentKHR : VkResult
deriving DecidableEq, Repr

/-- What the outside world answers during one run of the program. -/
structure Env where
  /-- Whether `glfwInit()` returned true. -/
  glfwInit : Bool
  /-- The window returned by `glfwCreateWindow`. -/
  glfwCreateWindow : Handle
  /-- The layer names reported by `vkEnumerateInstanceLayerProperties`. -/
  availableLayers : List String
  /-- The extension names reported by `vkEnumerateInstanceExtensionProperties`. -/
  availableExtensions : List String
  vkCreateInstance : Reply
  /-- Whether `vkGetInstanceProcAddr` finds `vkCreateDebugUtilsMessengerEXT`. -/
  createDebugUtilsMessengerAddr : Bool
  vkCreateDebugUtilsMessengerEXT : Reply
  /-- The count reported by the first `vkEnumeratePhysicalDevices`. -/
  deviceCount : Nat
  /-- The adapters written by the second `vkEnumeratePhysicalDevices`. -/
  devices : List Handle
  vkCreateDevice : Reply
  /-- The queue returned by the first `vkGetDeviceQueue`. -/
  graphicsQueue : Handle
  /-- The queue returned by the second `vkGetDeviceQueue`. -/
  presentQueue : Handle
  imageAvailableSemaphore : Reply
  renderFinishedSemaphore : Reply
  vkCreateFence : Reply
  vkCreateRenderPass : Reply
  vkCreatePipelineLayout : Reply
  /-- Whether the vertex shader file could be opened. -/
  vertFileOpen : Bool
  /-- Whether `tellg()` gives the size of the open vertex shader file; when it
  fails it gives -1 (main.cpp:84). -/
  vertTellg : Bool
  vertShaderModule : Reply
  /-- Whether the fragment shader file could be opened. -/
  fragFileOpen : Bool
  /-- Whether `tellg()` gives the size of the open fragment shader file. -/
  fragTellg : Bool
  fragShaderModule : Reply
  vkCreateGraphicsPipelines : Reply
  vkCreateBuffer : Reply
  /-- The field `memRequirements.size` after `vkGetBufferMemoryRequirements`. -/
  memRequirementsSize : Nat
  vkAllocateMemory : Reply
  vkBindBufferMemory : VkResult
  vkBeginCommandBuffer : VkResult
  vkEndCommandBuffer : VkResult
  /-- One entry per loop iteration for which `glfwWindowShouldClose` is false;
  after the last one it is true. -/
  frames : List FrameEnv
  /-- Whether `vkGetInstanceProcAddr` finds `vkDestroyDebugUtilsMessengerEXT`. -/
  destroyDebugUtilsMessengerAddr : Bool
  /-- The undeclared identifier `surface`. -/
  surface : Handle
  /-- The undeclared identifier `swapChain`. -/
  swapChain : Handle
deriving Repr

/-- The result of running a function of the program. -/
structure Out where
  /-- The calls issued, in order. -/
  calls : List Call
  /-- The value is `none` when the function returned to its caller. -/
  exit : Option Exit
  /-- The globals afterwards. -/
  g : Globals
deriving Repr

/-- Sequential composition: run `f` after `a` unless `a` ended the process. -/
def Out.andThen (a : Out) (f : Globals → Out) : Out :=
  match a.exit with
  | some e => { calls := a.calls, exit := some e, g := a.g }
  | none => { calls := a.calls ++ (f a.g).calls, exit := (f a.g).exit, g := (f a.g).g }

/-- A call of `main` to the function `f` of the program: the call itself, then what `f` does. -/
def invoke (f : Fn) (body : Globals → Out) (g : Globals) : Out :=
  { calls := Call.fn f :: (body g).calls, exit := (body g).exit, g := (body g).g }

/-! ## The functions of main.cpp -/

/-- The inner loop of `checkValidationLayerSupport` (main.cpp:32-37): whether
`strcmp` finds `layerName` among the available layers. -/
def layerFound (layerName : String) : List String → Bool
  | [] => false
  | layerProperties :: rest =>
    if layerName = layerProperties then true else layerFound layerName rest

/-- The outer loop of `checkValidationLayerSupport` (main.cpp:29-44). -/
def checkLayers (availableLayers : List String) : List String → Bool
  | [] => true
  | layerName :: rest =>
    if !layerFound layerName availableLayers then false else checkLayers availableLayers rest

/-- The value returned by `checkValidationLayerSupport` (main.cpp:23-45). -/
def checkValidationLayerSupport (env : Env) : Bool :=
  checkLayers env.availableLayers validationLayers

/-- The calls issued by one run of `checkValidationLayerSupport` (main.cpp:25-27). -/
def checkValidationLayerSupportCalls : List Call :=
  [Call.vkEnumerateInstanceLayerProperties, Call.vkEnumerateInstanceLayerProperties]

/-- The function `setupDebugMessenger` (main.cpp:56-74). -/
def setupDebugMessenger (env : Env) (g : Globals) : Out :=
  if !checkValidationLayerSupport env then
    { calls := checkValidationLayerSupportCalls, exit := none, g := g }
  else if env.createDebugUtilsMessengerAddr then
    if env.vkCreateDebugUtilsMessengerEXT.result ≠ VK_SUCCESS then
      { calls := checkValidationLayerSupportCalls ++
          [Call.vkGetInstanceProcAddr g.vkInstance "vkCreateDebugUtilsMessengerEXT",
           Call.vkCreateDebugUtilsMessengerEXT g.vkInstance],
        exit := some (Exit.exit 1),
        g := { g with debugMessenger := env.vkCreateDebugUtilsMessengerEXT.handle } }
    else
      { calls := checkValidationLayerSupportCalls ++
          [Call.vkGetInstanceProcAddr g.vkInstance "vkCreateDebugUtilsMessengerEXT",
           Call.vkCreateDebugUtilsMessengerEXT g.vkInstance],
        exit := none,
        g := { g with debugMessenger := env.vkCreateDebugUtilsMessengerEXT.handle } }
  else
    { calls := checkValidationLayerSupportCalls ++
        [Call.vkGetInstanceProcAddr g.vkInstance "vkCreateDebugUtilsMessengerEXT"],
      exit := none, g := g }

/-- The result of `loadShader` (main.cpp:77-102): the calls, how it ended, and
the shader module it returns. -/
structure ShaderOut where
  calls : List Call
  exit : Option Exit
  shaderModule : Handle
deriving Repr

/-- The function `loadShader` (main.cpp:77-102).  When `tellg()` fails, the
size `(size_t)file.tellg()` is `(size_t)-1`, more than a `std::vector<char>` can
hold, and the constructor of `buffer` (main.cpp:85) throws a
`std::length_error`, which nothing catches. -/
def loadShader (filePath : String) (fileOpen tellg : Bool) (reply : Reply) (g : Globals) :
    ShaderOut :=
  if !fileOpen then
    { calls := [Call.ifstreamOpen filePath], exit := some (Exit.exit 1),
      shaderModule := VK_NULL_HANDLE }
  else if !tellg then
    { calls := [Call.ifstreamOpen filePath], exit := some (Exit.uncaught "std::length_error"),
      shaderModule := VK_NULL_HANDLE }
  else if reply.result ≠ VK_SUCCESS then
    { calls := [Call.ifstreamOpen filePath, Call.vkCreateShaderModule g.device],
      exit := some (Exit.exit 1), shaderModule := reply.handle }
  else
    { calls := [Call.ifstreamOpen filePath, Call.vkCreateShaderModule g.device],
      exit := none, shaderModule := reply.handle }

/-- The loop of `createInstance` over the available extensions (main.cpp:144-148),
appending to `enabledExtensions`. -/
def pushDebugUtils (enabledExtensions : List String) : List String → List String
  | [] => enabledExtensions
  | extension :: rest =>
    if extension = VK_EXT_DEBUG_UTILS_EXTENSION_NAME then
      pushDebugUtils (enabledExtensions ++ [VK_EXT_DEBUG_UTILS_EXTENSION_NAME]) rest
    else pushDebugUtils enabledExtensions rest

/-- The `createInfo` that `createInstance` hands to `vkCreateInstance` (main.cpp:122-151). -/
def instanceCreateInfo (env : Env) : InstanceCreateInfo :=
  { enabledLayerCount := if checkValidationLayerSupport env then validationLayers.length else 0,
    ppEnabledLayerNames := if checkValidationLayerSupport env then validationLayers else [],
    ppEnabledExtensionNames :=
      pushDebugUtils [VK_KHR_SURFACE_EXTENSION_NAME] env.availableExtensions }

/-- The function `createInstance` (main.cpp:106-157). -/
def createInstance (env : Env) (g : Globals) : Out :=
  { calls := checkValidationLayerSupportCalls ++ checkValidationLayerSupportCalls ++
      [Call.vkEnumerateInstanceExtensionProperties, Call.vkEnumerateInstanceExtensionProperties,
       Call.vkCreateInstance (instanceCreateInfo env)],
    exit := if env.vkCreateInstance.result ≠ VK_SUCCESS then some (Exit.exit 1) else none,
    g := { g with vkInstance := env.vkCreateInstance.handle } }

/-- The vector `devices` of `pickPhysicalDevice` after the second enumeration
(main.cpp:168-169): `deviceCount` entries, null where the driver wrote nothing. -/
def enumeratedDevices (env : Env) : List Handle :=
  (env.devices ++ List.replicate env.deviceCount VK_NULL_HANDLE).take env.deviceCount

/-- The loop of `pickPhysicalDevice` (main.cpp:171-176): the value of the
global `physicalDevice` after it. -/
def pickLoop (physicalDevice : Handle) : List Handle → Handle
  | [] => physicalDevice
  | dev :: _ => if true then dev else physicalDevice

/-- The function `pickPhysicalDevice` (main.cpp:159-182). -/
def pickPhysicalDevice (env : Env) (g : Globals) : Out :=
  if env.deviceCount = 0 then
    { calls := [Call.vkEnumeratePhysicalDevices g.vkInstance], exit := some (Exit.exit 1), g := g }
  else
    { calls := [Call.vkEnumeratePhysicalDevices g.vkInstance,
                Call.vkEnumeratePhysicalDevices g.vkInstance],
      exit := if pickLoop g.physicalDevice (enumeratedDevices env) = VK_NULL_HANDLE
              then some (Exit.exit 1) else none,
      g := { g with physicalDevice := pickLoop g.physicalDevice (enumeratedDevices env) } }

/-- The `createInfo` of `createLogicalDevice` (main.cpp:185-205). -/
def deviceCreateInfo : DeviceCreateInfo :=
  { queueFamilyIndex := 0, queueCount := 1,
    ppEnabledExtensionNames := [VK_KHR_SWAPCHAIN_EXTENSION_NAME], enabledLayerCount := 0 }

/-- The function `createLogicalDevice` (main.cpp:184-215). -/
def createLogicalDevice (env : Env) (g : Globals) : Out :=
  if env.vkCreateDevice.result ≠ VK_SUCCESS then
    { calls := [Call.vkCreateDevice g.physicalDevice deviceCreateInfo],
      exit := some (Exit.exit 1), g := { g with device := env.vkCreateDevice.handle } }
  else
    { calls := [Call.vkCreateDevice g.physicalDevice deviceCreateInfo,
                Call.vkGetDeviceQueue env.vkCreateDevice.handle 0 0,
                Call.vkGetDeviceQueue env.vkCreateDevice.handle 0 0],
      exit := none,
      g := { g with device := env.vkCreateDevice.handle, graphicsQueue := env.graphicsQueue,
                    presentQueue := env.presentQueue } }

/-- The function `createRenderPass` (main.cpp:217-250). -/
def createRenderPass (env : Env) (g : Globals) : Out :=
  { calls := [Call.vkCreateRenderPass g.device],
    exit := if env.vkCreateRenderPass.result ≠ VK_SUCCESS then some (Exit.exit (-1)) else none,
    g := { g with renderPass := env.vkCreateRenderPass.handle } }

/-- The `bindingDescription` of `createGraphicsPipeline` (main.cpp:301-304). -/
def bindingDescription : VertexInputBindingDescription :=
  { binding := 0, stride := 4, inputRate := VK_VERTEX_INPUT_RATE_VERTEX }

/-- The `attributeDescription` of `createGraphicsPipeline` (main.cpp:308-312);
the field `offset` keeps the zero of the `= {}` initialiser. -/
def attributeDescription : VertexInputAttributeDescription :=
  { location := 0, binding := 0, format := VK_FORMAT_R32G32B32_SFLOAT, offset := 0 }

/-- The `pipelineInfo` of `createGraphicsPipeline` (main.cpp:363-375). -/
def pipelineInfo (g : Globals) (vertShaderModule fragShaderModule : Handle) :
    GraphicsPipelineCreateInfo :=
  { stages := [vertShaderModule, fragShaderModule],
    bindingDescriptions := [bindingDescription],
    attributeDescriptions := [attributeDescription],
    layout := g.pipelineLayout, renderPass := g.renderPass }

/-- The function `createGraphicsPipeline` (main.cpp:253-386). -/
def createGraphicsPipeline (env : Env) (g : Globals) : Out :=
  let g1 := { g with pipelineLayout := env.vkCreatePipelineLayout.handle }
  if env.vkCreatePipelineLayout.result ≠ VK_SUCCESS then
    { calls := [Call.vkCreatePipelineLayout g.device], exit := none, g := g1 }
  else
    let vert := loadShader "F:/TEMP/ProjectVulkan/vert.spv" env.vertFileOpen env.vertTellg
      env.vertShaderModule g1
    match vert.exit with
    | some e => { calls := Call.vkCreatePipelineLayout g.device :: vert.calls, exit := some e, g := g1 }
    | none =>
      let frag :=
        loadShader "F:/TEMP/ProjectVulkan/frag.spv" env.fragFileOpen env.fragTellg
          env.fragShaderModule g1
      match frag.exit with
      | some e =>
        { calls := Call.vkCreatePipelineLayout g.device :: (vert.calls ++ frag.calls),
          exit := some e, g := g1 }
      | none =>
        let g2 := { g1 with graphicsPipeline := env.vkCreateGraphicsPipelines.handle }
        let create := Call.vkCreateGraphicsPipelines g1.device
          (pipelineInfo g1 vert.shaderModule frag.shaderModule)
        if env.vkCreateGraphicsPipelines.result ≠ VK_SUCCESS then
          { calls := Call.vkCreatePipelineLayout g.device :: (vert.calls ++ frag.calls ++ [create]),
            exit := some (Exit.exit 1), g := g2 }
        else
          { calls := Call.vkCreatePipelineLayout g.device :: (vert.calls ++ frag.calls ++
              [create, Call.vkDestroyShaderModule g1.device frag.shaderModule,
               Call.vkDestroyShaderModule g1.device vert.shaderModule]),
            exit := none, g := g2 }

/-- The function `initWindow` (main.cpp:390-404). -/
def initWindow (env : Env) (g : Globals) : Out :=
  if !env.glfwInit then
    { calls := [Call.glfwInit], exit := some (Exit.uncaught "failed to initialize GLFW!"), g := g }
  else if env.glfwCreateWindow = VK_NULL_HANDLE then
    { calls := [Call.glfwInit, Call.glfwWindowHint, Call.glfwCreateWindow 800 600,
                Call.glfwTerminate],
      exit := some (Exit.uncaught "failed to create GLFW window!"),
      g := { g with window := env.glfwCreateWindow } }
  else
    { calls := [Call.glfwInit, Call.glfwWindowHint, Call.glfwCreateWindow 800 600,
                Call.glfwMakeContextCurrent env.glfwCreateWindow, Call.glfwSwapInterval 1],
      exit := none, g := { g with window := env.glfwCreateWindow } }

/-- The `bufferSize` of `createVertexBuffer` (main.cpp:422). -/
def bufferSize : Nat := sizeofFloat * vertices.length

/-- The function `createVertexBuffer` (main.cpp:419-446). -/
def createVertexBuffer (env : Env) (g : Globals) : Out :=
  let g1 := { g with vertexBuffer := env.vkCreateBuffer.handle }
  if env.vkCreateBuffer.result ≠ VK_SUCCESS then
    { calls := [Call.vkCreateBuffer g.device bufferSize],
      exit := some (Exit.uncaught "failed to create vertex buffer!"), g := g1 }
  else
    let g2 := { g1 with vertexBufferMemory := env.vkAllocateMemory.handle }
    if env.vkAllocateMemory.result ≠ VK_SUCCESS then
      { calls := [Call.vkCreateBuffer g.device bufferSize,
                  Call.vkGetBufferMemoryRequirements g1.device g1.vertexBuffer,
                  Call.vkAllocateMemory g1.device env.memRequirementsSize],
        exit := some (Exit.uncaught "failed to allocate vertex buffer memory!"), g := g2 }
    else
      { calls := [Call.vkCreateBuffer g.device bufferSize,
                  Call.vkGetBufferMemoryRequirements g1.device g1.vertexBuffer,
                  Call.vkAllocateMemory g1.device env.memRequirementsSize,
                  Call.vkBindBufferMemory g2.device g2.vertexBuffer g2.vertexBufferMemory 0],
        exit := none, g := g2 }

/-- The function `recordCommandBuffer` (main.cpp:448-487). -/
def recordCommandBuffer (env : Env) (g : Globals) : Out :=
  if env.vkBeginCommandBuffer ≠ VK_SUCCESS then
    { calls := [Call.vkBeginCommandBuffer g.commandBuffer
                  VK_COMMAND_BUFFER_USAGE_SIMULTANEOUS_USE_BIT],
      exit := some (Exit.uncaught "failed to begin recording command buffer!"), g := g }
  else
    { calls := [Call.vkBeginCommandBuffer g.commandBuffer
                  VK_COMMAND_BUFFER_USAGE_SIMULTANEOUS_USE_BIT,
                Call.vkCmdBeginRenderPass g.commandBuffer g.renderPass g.framebuffer,
                Call.vkCmdBindPipeline g.commandBuffer g.graphicsPipeline,
                Call.vkCmdBindVertexBuffers g.commandBuffer [g.vertexBuffer] [0],
                Call.vkCmdDraw g.commandBuffer (vertices.length / 3) 1 0 0,
                Call.vkCmdEndRenderPass g.commandBuffer,
                Call.vkEndCommandBuffer g.commandBuffer],
      exit := if env.vkEndCommandBuffer ≠ VK_SUCCESS
              then some (Exit.uncaught "failed to record command buffer!") else none,
      g := g }

/-- The function `initSyncObjects` (main.cpp:493-509); the second semaphore is
created only when the first creation succeeded (short-circuit `||`). -/
def initSyncObjects (env : Env) (g : Globals) : Out :=
  let g1 := { g with imageAvailableSemaphore := env.imageAvailableSemaphore.handle }
  if env.imageAvailableSemaphore.result ≠ VK_SUCCESS then
    { calls := [Call.vkCreateSemaphore g.device],
      exit := some (Exit.uncaught "failed to create semaphores!"), g := g1 }
  else
    let g2 := { g1 with renderFinishedSemaphore := env.renderFinishedSemaphore.handle }
    if env.renderFinishedSemaphore.result ≠ VK_SUCCESS then
      { calls := [Call.vkCreateSemaphore g.device, Call.vkCreateSemaphore g.device],
        exit := some (Exit.uncaught "failed to create semaphores!"), g := g2 }
    else
      { calls := [Call.vkCreateSemaphore g.device, Call.vkCreateSemaphore g.device,
                  Call.vkCreateFence g.device VK_FENCE_CREATE_SIGNALED_BIT],
        exit := if env.vkCreateFence.result ≠ VK_SUCCESS
                then some (Exit.uncaught "failed to create fence!") else none,
        g := { g2 with fence := env.vkCreateFence.handle } }

/-- The `submitInfo` of `drawFrame` (main.cpp:520-534). -/
def submitInfo (g : Globals) : SubmitInfo :=
  { pWaitSemaphores := [g.imageAvailableSemaphore],
    pWaitDstStageMask := [VK_PIPELINE_STAGE_COLOR_ATTACHMENT_OUTPUT_BIT],
    pCommandBuffers := [g.commandBuffer],
    pSignalSemaphores := [g.renderFinishedSemaphore] }

/-- The `presentInfo` of `drawFrame` (main.cpp:540-547). -/
def presentInfo (env : Env) (g : Globals) (imageIndex : Nat) : PresentInfo :=
  { pWaitSemaphores := (submitInfo g).pSignalSemaphores,
    pSwapchains := [env.swapChain],
    pImageIndices := [imageIndex] }

/-- The function `drawFrame` (main.cpp:511-550), run against the answers `fr`. -/
def drawFrame (env : Env) (fr : FrameEnv) (g : Globals) : Out :=
  if fr.vkQueueSubmit ≠ VK_SUCCESS then
    { calls := [Call.vkWaitForFences g.device [g.fence] true UINT64_MAX,
                Call.vkResetFences g.device [g.fence],
                Call.vkAcquireNextImageKHR g.device env.swapChain UINT64_MAX
                  g.imageAvailableSemaphore VK_NULL_HANDLE,
                Call.vkQueueSubmit g.graphicsQueue (submitInfo g) g.fence],
      exit := some (Exit.uncaught "failed to submit draw command buffer!"), g := g }
  else
    { calls := [Call.vkWaitForFences g.device [g.fence] true UINT64_MAX,
                Call.vkResetFences g.device [g.fence],
                Call.vkAcquireNextImageKHR g.device env.swapChain UINT64_MAX
                  g.imageAvailableSemaphore VK_NULL_HANDLE,
                Call.vkQueueSubmit g.graphicsQueue (submitInfo g) g.fence,
                Call.vkQueuePresentKHR g.graphicsQueue (presentInfo env g fr.imageIndex)],
      exit := none, g := g }

/-- The main loop (main.cpp:577-580), one iteration per remaining `FrameEnv`. -/
def mainLoop (env : Env) (g : Globals) : List FrameEnv → Out
  | [] => { calls := [Call.glfwWindowShouldClose g.window], exit := none, g := g }
  | fr :: rest =>
    match (drawFrame env fr g).exit with
    | some e =>
      { calls := Call.glfwWindowShouldClose g.window :: Call.fn Fn.drawFrame ::
          (drawFrame env fr g).calls,
        exit := some e, g := g }
    | none =>
      { calls := Call.glfwWindowShouldClose g.window :: Call.fn Fn.drawFrame ::
          ((drawFrame env fr g).calls ++ Call.glfwPollEvents :: (mainLoop env g rest).calls),
        exit := (mainLoop env g rest).exit, g := (mainLoop env g rest).g }

/-- The teardown sequence of `main` (main.cpp:583-624). -/
def teardown (env : Env) (g : Globals) : List Call :=
  (if g.graphicsPipeline ≠ VK_NULL_HANDLE
    then [Call.vkDestroyPipeline g.device g.graphicsPipeline] else []) ++
  (if g.pipelineLayout ≠ VK_NULL_HANDLE
    then [Call.vkDestroyPipelineLayout g.device g.pipelineLayout] else []) ++
  (if g.renderPass ≠ VK_NULL_HANDLE
    then [Call.vkDestroyRenderPass g.device g.renderPass] else []) ++
  (if g.device ≠ VK_NULL_HANDLE then [Call.vkDestroyDevice g.device] else []) ++
  (if g.debugMessenger ≠ VK_NULL_HANDLE then
    Call.vkGetInstanceProcAddr g.vkInstance "vkDestroyDebugUtilsMessengerEXT" ::
      (if env.destroyDebugUtilsMessengerAddr
        then [Call.vkDestroyDebugUtilsMessengerEXT g.vkInstance g.debugMessenger] else [])
    else []) ++
  (if g.vkInstance ≠ VK_NULL_HANDLE then [Call.vkDestroyInstance g.vkInstance] else []) ++
  [Call.vkDestroySemaphore g.device g.imageAvailableSemaphore,
   Call.vkDestroySemaphore g.device g.renderFinishedSemaphore,
   Call.vkDestroyFence g.device g.fence,
   Call.vkDestroyWindowSurface g.vkInstance env.surface,
   Call.vkDestroyDevice g.device,
   Call.glfwDestroyWindow g.window,
   Call.glfwTerminate]

/-- The functions that `main` calls before the loop, in the order of the calls
(main.cpp:554-574). -/
def initSteps (env : Env) : List (Fn × (Globals → Out)) :=
  [(Fn.initWindow, initWindow env),
   (Fn.createInstance, createInstance env),
   (Fn.setupDebugMessenger, setupDebugMessenger env),
   (Fn.pickPhysicalDevice, pickPhysicalDevice env),
   (Fn.createLogicalDevice, createLogicalDevice env),
   (Fn.initSyncObjects, initSyncObjects env),
   (Fn.createRenderPass, createRenderPass env),
   (Fn.createGraphicsPipeline, createGraphicsPipeline env),
   (Fn.createVertexBuffer, createVertexBuffer env),
   (Fn.recordCommandBuffer, recordCommandBuffer env)]

/-- Calling the functions of a list one after the other, stopping at the first
that ends the process. -/
def runSteps : List (Fn × (Globals → Out)) → Globals → Out
  | [], g => { calls := [], exit := none, g := g }
  | step :: rest, g => (invoke step.1 step.2 g).andThen (runSteps rest)

/-- The initialisation part of `main` (main.cpp:554-574). -/
def mainInit (env : Env) : Out :=
  runSteps (initSteps env) Globals.init

/-- The function `main` (main.cpp:553-630). -/
def main (env : Env) : Out :=
  ((mainInit env).andThen (fun g => mainLoop env g env.frames)).andThen
    (fun g => { calls := teardown env g, exit := some (Exit.returned 0), g := g })

/-! ## Concrete environments and observers of a trace -/

/-- A successful reply carrying the handle `h`. -/
def Reply.ok (h : Handle) : Reply := { result := VK_SUCCESS, handle := h }

/-- No driver call of the frame reports a failure. -/
def FrameEnv.noFailure (fr : FrameEnv) : Prop :=
  fr.vkWaitForFences = VK_SUCCESS ∧ fr.vkResetFences = VK_SUCCESS ∧
  fr.vkAcquireNextImageKHR = VK_SUCCESS ∧ fr.vkQueueSubmit = VK_SUCCESS ∧
  fr.vkQueuePresentKHR = VK_SUCCESS

instance (fr : FrameEnv) : Decidable fr.noFailure := by
  unfold FrameEnv.noFailure
  infer_instance

/-- A frame in which every driver call succeeds; the acquire returns image 2. -/
def frameOk : FrameEnv :=
  { vkWaitForFences := VK_SUCCESS, vkResetFences := VK_SUCCESS,
    vkAcquireNextImageKHR := VK_SUCCESS, imageIndex := 2,
    vkQueueSubmit := VK_SUCCESS, vkQueuePresentKHR := VK_SUCCESS }

/-- A run in which every call succeeds, every created handle is distinct and
non-null, the validation layer is installed, and the window closes before the
first frame. -/
def envOk : Env :=
  { glfwInit := true, glfwCreateWindow := 1,
    availableLayers := ["VK_LAYER_KHRONOS_validation"],
    availableExtensions := ["VK_KHR_surface", "VK_EXT_debug_utils"],
    vkCreateInstance := Reply.ok 2, createDebugUtilsMessengerAddr := true,
    vkCreateDebugUtilsMessengerEXT := Reply.ok 3, deviceCount := 1, devices := [4],
    vkCreateDevice := Reply.ok 5, graphicsQueue := 6, presentQueue := 6,
    imageAvailableSemaphore := Reply.ok 7, renderFinishedSemaphore := Reply.ok 8,
    vkCreateFence := Reply.ok 9, vkCreateRenderPass := Reply.ok 10,
    vkCreatePipelineLayout := Reply.ok 11, vertFileOpen := true, vertTellg := true,
    vertShaderModule := Reply.ok 12, fragFileOpen := true, fragTellg := true,
    fragShaderModule := Reply.ok 13,
    vkCreateGraphicsPipelines := Reply.ok 14, vkCreateBuffer := Reply.ok 15,
    memRequirementsSize := 64, vkAllocateMemory := Reply.ok 16,
    vkBindBufferMemory := VK_SUCCESS, vkBeginCommandBuffer := VK_SUCCESS,
    vkEndCommandBuffer := VK_SUCCESS, frames := [],
    destroyDebugUtilsMessengerAddr := true, surface := 17, swapChain := 18 }

/-- The globals of the run `envOk` when the main loop starts. -/
def globalsOk : Globals := (mainInit envOk).g

/-- Whether the call is a queue submission. -/
def Call.isSubmit : Call → Bool
  | Call.vkQueueSubmit _ _ _ => true
  | _ => false

/-- The run `envOk` on a machine without the validation layer. -/
def envNoLayers : Env := { envOk with availableLayers := ["VK_LAYER_LUNARG_api_dump"] }

/-- The run `envOk` on a machine where the enumeration reports no adapter. -/
def envNoAdapter : Env := { envOk with deviceCount := 0, devices := [] }

/-- The initialisation steps of `main` after `pickPhysicalDevice`, and the frames. -/
def laterSteps : List Fn :=
  [Fn.createLogicalDevice, Fn.initSyncObjects, Fn.createRenderPass, Fn.createGraphicsPipeline,
   Fn.createVertexBuffer, Fn.recordCommandBuffer, Fn.drawFrame]

/-- Whether the process ended in failure: `main` returned a non-zero value,
`exit` was called with a status whose low byte is non-zero, or an exception
reached `std::terminate`. -/
def Exit.isFailure : Exit → Bool
  | Exit.returned code => code % 256 != 0
  | Exit.exit code => code % 256 != 0
  | Exit.uncaught _ => true

/-- Whether the call is one of those that wait for the GPU: a fence wait (a
device-idle wait would be another, but the program has no such call). -/
def Call.isGpuWait : Call → Bool
  | Call.vkWaitForFences _ _ _ _ => true
  | _ => false

/-- The kinds of objects the program handles. -/
inductive ObjKind where
  | pipeline | pipelineLayout | renderPass | device | debugMessenger | vkInstance
  | semaphore | fence | surface | shaderModule | window
  | buffer | deviceMemory | commandPool
deriving DecidableEq, Repr

/-- The object a call destroys or frees, if it is a destroy call.  The program
has no call that destroys a buffer, frees device memory or destroys a command pool. -/
def Call.destroyed : Call → Option (ObjKind × Handle)
  | Call.vkDestroyPipeline _ pipeline => some (ObjKind.pipeline, pipeline)
  | Call.vkDestroyPipelineLayout _ pipelineLayout => some (ObjKind.pipelineLayout, pipelineLayout)
  | Call.vkDestroyRenderPass _ renderPass => some (ObjKind.renderPass, renderPass)
  | Call.vkDestroyDevice device => some (ObjKind.device, device)
  | Call.vkDestroyDebugUtilsMessengerEXT _ messenger => some (ObjKind.debugMessenger, messenger)
  | Call.vkDestroyInstance inst => some (ObjKind.vkInstance, inst)
  | Call.vkDestroySemaphore _ semaphore => some (ObjKind.semaphore, semaphore)
  | Call.vkDestroyFence _ fence => some (ObjKind.fence, fence)
  | Call.vkDestroyWindowSurface _ surface => some (ObjKind.surface, surface)
  | Call.vkDestroyShaderModule _ shaderModule => some (ObjKind.shaderModule, shaderModule)
  | Call.glfwDestroyWindow window => some (ObjKind.window, window)
  | _ => none

/-- The destroy calls of a trace, in order: which object each one destroys. -/
def destroys (trace : List Call) : List (ObjKind × Handle) :=
  trace.filterMap Call.destroyed

/-- How many calls of the trace destroy the object `h` of kind `k`. -/
def destroyCount (k : ObjKind) (h : Handle) (trace : List Call) : Nat :=
  (destroys trace).count (k, h)

/-- The calls that the bodies of the initialisation functions can issue. -/
def Call.inInit : Call → Bool
  | Call.glfwInit => true
  | Call.glfwWindowHint => true
  | Call.glfwCreateWindow _ _ => true
  | Call.glfwTerminate => true
  | Call.glfwMakeContextCurrent _ => true
  | Call.glfwSwapInterval _ => true
  | Call.vkEnumerateInstanceLayerProperties => true
  | Call.vkEnumerateInstanceExtensionProperties => true
  | Call.vkCreateInstance _ => true
  | Call.vkGetInstanceProcAddr _ _ => true
  | Call.vkCreateDebugUtilsMessengerEXT _ => true
  | Call.vkEnumeratePhysicalDevices _ => true
  | Call.vkCreateDevice _ _ => true
  | Call.vkGetDeviceQueue _ _ _ => true
  | Call.vkCreateSemaphore _ => true
  | Call.vkCreateFence _ flags => flags = VK_FENCE_CREATE_SIGNALED_BIT
  | Call.vkCreateRenderPass _ => true
  | Call.vkCreatePipelineLayout _ => true
  | Call.ifstreamOpen _ => true
  | Call.vkCreateShaderModule _ => true
  | Call.vkCreateGraphicsPipelines _ _ => true
  | Call.vkDestroyShaderModule _ _ => true
  | Call.vkCreateBuffer _ _ => true
  | Call.vkGetBufferMemoryRequirements _ _ => true
  | Call.vkAllocateMemory _ _ => true
  | Call.vkBindBufferMemory _ _ _ _ => true
  | Call.vkBeginCommandBuffer _ _ => true
  | Call.vkCmdBeginRenderPass _ _ _ => true
  | Call.vkCmdBindPipeline _ _ => true
  | Call.vkCmdBindVertexBuffers _ _ _ => true
  | Call.vkCmdDraw _ _ _ _ _ => true
  | Call.vkCmdEndRenderPass _ => true
  | Call.vkEndCommandBuffer _ => true
  | _ => false

/-- The globals when the main loop starts, in terms of the answers of the
environment (see `mainInit_g`). -/
def initGlobals (env : Env) : Globals :=
  { vkInstance := env.vkCreateInstance.handle,
    device := env.vkCreateDevice.handle,
    physicalDevice := pickLoop VK_NULL_HANDLE (enumeratedDevices env),
    graphicsQueue := env.graphicsQueue,
    renderPass := env.vkCreateRenderPass.handle,
    pipelineLayout := env.vkCreatePipelineLayout.handle,
    graphicsPipeline :=
      if env.vkCreatePipelineLayout.result = VK_SUCCESS
      then env.vkCreateGraphicsPipelines.handle else VK_NULL_HANDLE,
    debugMessenger :=
      if checkValidationLayerSupport env = true ∧ env.createDebugUtilsMessengerAddr = true
      then env.vkCreateDebugUtilsMessengerEXT.handle else VK_NULL_HANDLE,
    presentQueue := env.presentQueue,
    window := env.glfwCreateWindow,
    commandBuffer := VK_NULL_HANDLE,
    vertexBuffer := env.vkCreateBuffer.handle,
    vertexBufferMemory := env.vkAllocateMemory.handle,
    framebuffer := VK_NULL_HANDLE,
    imageAvailableSemaphore := env.imageAvailableSemaphore.handle,
    renderFinishedSemaphore := env.renderFinishedSemaphore.handle,
    fence := env.vkCreateFence.handle }

/-- The run `envOk` with the window staying open for two frames. -/
def envTwoFrames : Env := { envOk with frames := [frameOk, frameOk] }

/-- The run `envOk` with the window staying open for one frame. -/
def envOneFrame : Env := { envOk with frames := [frameOk] }

/-- The run `envOk` with a null `surface` (the program never creates one). -/
def envNullSurface : Env := { envOk with surface := VK_NULL_HANDLE }

/-- The run `envOk` with a failing `vkCreateRenderPass`. -/
def envRenderPassFails : Env :=
  { envOk with vkCreateRenderPass := { result := -1, handle := VK_NULL_HANDLE } }

/-- The order of destruction that section 4.6 of the specification asks of the teardown. -/
def specTeardownOrder : List ObjKind :=
  [ObjKind.pipeline, ObjKind.pipelineLayout, ObjKind.renderPass, ObjKind.semaphore,
   ObjKind.semaphore, ObjKind.fence, ObjKind.buffer, ObjKind.deviceMemory, ObjKind.commandPool,
   ObjKind.device, ObjKind.debugMessenger, ObjKind.vkInstance, ObjKind.window]

/-- Whether, in a list of destroyed kinds, every object of kind `a` is destroyed
before every object of kind `b`: no `a` comes after a `b`. -/
def destroyedBefore (a b : ObjKind) : List ObjKind → Bool
  | [] => true
  | k :: rest => (k != b || rest.all (fun later => later != a)) && destroyedBefore a b rest

/-- The driver hands out non-null handles on success, and different handles
for the two semaphores and for the two shader modules. -/
def Env.handlesValid (env : Env) : Prop :=
  (env.vkCreateInstance.result = VK_SUCCESS → env.vkCreateInstance.handle ≠ VK_NULL_HANDLE) ∧
  (env.vkCreateDebugUtilsMessengerEXT.result = VK_SUCCESS →
    env.vkCreateDebugUtilsMessengerEXT.handle ≠ VK_NULL_HANDLE) ∧
  (env.vkCreateRenderPass.result = VK_SUCCESS →
    env.vkCreateRenderPass.handle ≠ VK_NULL_HANDLE) ∧
  (env.vkCreatePipelineLayout.result = VK_SUCCESS →
    env.vkCreatePipelineLayout.handle ≠ VK_NULL_HANDLE) ∧
  (env.vkCreateGraphicsPipelines.result = VK_SUCCESS →
    env.vkCreateGraphicsPipelines.handle ≠ VK_NULL_HANDLE) ∧
  env.imageAvailableSemaphore.handle ≠ env.renderFinishedSemaphore.handle ∧
  env.vertShaderModule.handle ≠ env.fragShaderModule.handle

instance (env : Env) : Decidable env.handlesValid := by
  unfold Env.handlesValid
  infer_instance

/-- The adapter selection as the specification words it: the first adapter, in
enumeration order, that exposes a graphics-capable queue family, an adapter
without one being skipped; `graphicsCapable` tells which adapters expose one. -/
def specSelectAdapter (graphicsCapable : Handle → Bool) : List Handle → Option Handle
  | [] => none
  | dev :: rest =>
    if graphicsCapable dev then some dev else specSelectAdapter graphicsCapable rest

/-- The run `envOk` on a machine that enumerates two adapters, 4 then 5. -/
def envTwoAdapters : Env := { envOk with deviceCount := 2, devices := [4, 5] }

/-- A machine on which adapter 5 exposes a graphics-capable queue family and
no other adapter does. -/
def onlyFiveHasGraphics (adapter : Handle) : Bool := adapter == 5

/-- The run `envOneFrame` with a failing `vkCreatePipelineLayout`
(`VK_ERROR_OUT_OF_HOST_MEMORY`). -/
def envLayoutFails : Env :=
  { envOneFrame with vkCreatePipelineLayout := { result := -1, handle := VK_NULL_HANDLE } }

/-- The run `envOneFrame` with a failing `vkBindBufferMemory`
(`VK_ERROR_OUT_OF_DEVICE_MEMORY`). -/
def envBindFails : Env := { envOneFrame with vkBindBufferMemory := -2 }

/-- The size in bytes of one attribute of format `VK_FORMAT_R32G32B32_SFLOAT`:
three 32-bit floats. -/
def sizeofR32G32B32 : Nat := 3 * sizeofFloat

/-! ## Theorems -/

/-! ## Sequencing lemmas -/

theorem Out.andThen_of_exit_some {a : Out} {e : Exit} (f : Globals → Out)
    (h : a.exit = some e) : a.andThen f = a := by
  cases a
  simp_all [Out.andThen]

theorem Out.andThen_calls_of_none {a : Out} (f : Globals → Out) (h : a.exit = none) :
    (a.andThen f).calls = a.calls ++ (f a.g).calls := by
  simp [Out.andThen, h]

theorem Out.andThen_exit_of_none {a : Out} (f : Globals → Out) (h : a.exit = none) :
    (a.andThen f).exit = (f a.g).exit := by
  simp [Out.andThen, h]

theorem Out.andThen_g_of_none {a : Out} (f : Globals → Out) (h : a.exit = none) :
    (a.andThen f).g = (f a.g).g := by
  simp [Out.andThen, h]

theorem Out.andThen_exit_eq_none {a : Out} {f : Globals → Out} :
    (a.andThen f).exit = none ↔ a.exit = none ∧ (f a.g).exit = none := by
  cases h : a.exit <;> simp [Out.andThen, h]

theorem Out.mem_andThen_calls {a : Out} {f : Globals → Out} {c : Call}
    (h : c ∈ (a.andThen f).calls) : c ∈ a.calls ∨ (a.exit = none ∧ c ∈ (f a.g).calls) := by
  cases ha : a.exit with
  | none => simpa [Out.andThen, ha] using h
  | some e => left; simpa [Out.andThen, ha] using h

theorem Out.andThen_assoc (a : Out) (f h : Globals → Out) :
    (a.andThen f).andThen h = a.andThen (fun g => (f g).andThen h) := by
  cases ha : a.exit with
  | some e => simp [Out.andThen, ha]
  | none =>
    cases hf : (f a.g).exit with
    | some e => simp [Out.andThen, ha, hf]
    | none => simp [Out.andThen, ha, hf]

theorem runSteps_append (s t : List (Fn × (Globals → Out))) (g : Globals) :
    runSteps (s ++ t) g = (runSteps s g).andThen (runSteps t) := by
  induction s generalizing g with
  | nil => simp [runSteps, Out.andThen]
  | cons step rest ih =>
    simp only [List.cons_append, runSteps, Out.andThen_assoc]
    congr 1
    funext g1
    exact ih g1

/-- Every call of a run of steps is the call of one of the steps or is issued
by the body of one of them. -/
theorem runSteps_calls (P : Call → Prop) (steps : List (Fn × (Globals → Out)))
    (hfn : ∀ s ∈ steps, P (Call.fn s.1))
    (hbody : ∀ s ∈ steps, ∀ g, ∀ c ∈ (s.2 g).calls, P c) (g : Globals) :
    ∀ c ∈ (runSteps steps g).calls, P c := by
  induction steps generalizing g with
  | nil => simp [runSteps]
  | cons step rest ih =>
    intro c hc
    simp only [runSteps] at hc
    rcases Out.mem_andThen_calls hc with h | ⟨-, h⟩
    · simp only [invoke, List.mem_cons] at h
      rcases h with rfl | h
      · exact hfn step (List.mem_cons_self _ _)
      · exact hbody step (List.mem_cons_self _ _) g c h
    · exact ih (fun s hs => hfn s (List.mem_cons_of_mem _ hs))
        (fun s hs => hbody s (List.mem_cons_of_mem _ hs)) _ c h

/-- A run of steps ends the process only the way one of its steps does. -/
theorem runSteps_exit (Q : Exit → Prop) (steps : List (Fn × (Globals → Out)))
    (hbody : ∀ s ∈ steps, ∀ g e, (s.2 g).exit = some e → Q e) (g : Globals) (e : Exit)
    (h : (runSteps steps g).exit = some e) : Q e := by
  induction steps generalizing g with
  | nil => simp [runSteps] at h
  | cons step rest ih =>
    simp only [runSteps] at h
    cases hs : (invoke step.1 step.2 g).exit with
    | none =>
      rw [Out.andThen_exit_of_none _ hs] at h
      exact ih (fun s hs => hbody s (List.mem_cons_of_mem _ hs)) _ h
    | some e' =>
      rw [Out.andThen_of_exit_some _ hs, hs] at h
      cases h
      exact hbody step (List.mem_cons_self _ _) g _ hs

/-- The ways `loadShader` can run. -/
theorem loadShader_cases (filePath : String) (fileOpen tellg : Bool) (reply : Reply)
    (g : Globals) :
    (∃ e, e.isFailure = true ∧ loadShader filePath fileOpen tellg reply g =
        { calls := [Call.ifstreamOpen filePath], exit := some e,
          shaderModule := VK_NULL_HANDLE }) ∨
    loadShader filePath fileOpen tellg reply g =
        { calls := [Call.ifstreamOpen filePath, Call.vkCreateShaderModule g.device],
          exit := some (Exit.exit 1), shaderModule := reply.handle } ∨
    (fileOpen = true ∧ tellg = true ∧ reply.result = VK_SUCCESS ∧
      loadShader filePath fileOpen tellg reply g =
        { calls := [Call.ifstreamOpen filePath, Call.vkCreateShaderModule g.device],
          exit := none, shaderModule := reply.handle }) := by
  cases fileOpen
  · exact Or.inl ⟨Exit.exit 1, rfl, by simp [loadShader]⟩
  cases tellg
  · exact Or.inl ⟨Exit.uncaught "std::length_error", rfl, by simp [loadShader]⟩
  by_cases h : reply.result = VK_SUCCESS
  · exact Or.inr (Or.inr ⟨rfl, rfl, h, by simp [loadShader, h]⟩)
  · exact Or.inr (Or.inl (by simp [loadShader, h]))

/-- The ways `createGraphicsPipeline` can run. -/
theorem createGraphicsPipeline_cases (env : Env) (g : Globals) :
    (∃ calls e, (∀ c ∈ calls, c.inInit = true ∧ c.destroyed = none) ∧ e.isFailure = true ∧
      createGraphicsPipeline env g =
        { calls := calls, exit := some e,
          g := { g with pipelineLayout := env.vkCreatePipelineLayout.handle } }) ∨
    (env.vkCreatePipelineLayout.result ≠ VK_SUCCESS ∧
      createGraphicsPipeline env g =
        { calls := [Call.vkCreatePipelineLayout g.device], exit := none,
          g := { g with pipelineLayout := env.vkCreatePipelineLayout.handle } }) ∨
    (env.vkCreatePipelineLayout.result = VK_SUCCESS ∧ env.vertFileOpen = true ∧
      env.vertShaderModule.result = VK_SUCCESS ∧ env.fragFileOpen = true ∧
      env.fragShaderModule.result = VK_SUCCESS ∧
      env.vkCreateGraphicsPipelines.result ≠ VK_SUCCESS ∧
      createGraphicsPipeline env g =
        { calls := [Call.vkCreatePipelineLayout g.device,
            Call.ifstreamOpen "F:/TEMP/ProjectVulkan/vert.spv", Call.vkCreateShaderModule g.device,
            Call.ifstreamOpen "F:/TEMP/ProjectVulkan/frag.spv", Call.vkCreateShaderModule g.device,
            Call.vkCreateGraphicsPipelines g.device
              (pipelineInfo { g with pipelineLayout := env.vkCreatePipelineLayout.handle }
                env.vertShaderModule.handle env.fragShaderModule.handle)],
          exit := some (Exit.exit 1),
          g := { g with pipelineLayout := env.vkCreatePipelineLayout.handle,
                        graphicsPipeline := env.vkCreateGraphicsPipelines.handle } }) ∨
    (env.vkCreatePipelineLayout.result = VK_SUCCESS ∧ env.vertFileOpen = true ∧
      env.vertShaderModule.result = VK_SUCCESS ∧ env.fragFileOpen = true ∧
      env.fragShaderModule.result = VK_SUCCESS ∧
      env.vkCreateGraphicsPipelines.result = VK_SUCCESS ∧
      createGraphicsPipeline env g =
        { calls := [Call.vkCreatePipelineLayout g.device,
            Call.ifstreamOpen "F:/TEMP/ProjectVulkan/vert.spv", Call.vkCreateShaderModule g.device,
            Call.ifstreamOpen "F:/TEMP/ProjectVulkan/frag.spv", Call.vkCreateShaderModule g.device,
            Call.vkCreateGraphicsPipelines g.device
              (pipelineInfo { g with pipelineLayout := env.vkCreatePipelineLayout.handle }
                env.vertShaderModule.handle env.fragShaderModule.handle),
            Call.vkDestroyShaderModule g.device env.fragShaderModule.handle,
            Call.vkDestroyShaderModule g.device env.vertShaderModule.handle],
          exit := none,
          g := { g with pipelineLayout := env.vkCreatePipelineLayout.handle,
                        graphicsPipeline := env.vkCreateGraphicsPipelines.handle } }) := by
  by_cases h1 : env.vkCreatePipelineLayout.result = VK_SUCCESS
  swap
  · right; left
    exact ⟨h1, by simp [createGraphicsPipeline, h1]⟩
  rcases loadShader_cases "F:/TEMP/ProjectVulkan/vert.spv" env.vertFileOpen env.vertTellg
      env.vertShaderModule { g with pipelineLayout := env.vkCreatePipelineLayout.handle } with
    ⟨ev, hev, hv⟩ | hv | ⟨hvo, -, hvr, hv⟩
  · left
    refine ⟨[Call.vkCreatePipelineLayout g.device,
      Call.ifstreamOpen "F:/TEMP/ProjectVulkan/vert.spv"], ev, ?_, hev, ?_⟩
    · simp [Call.inInit, Call.destroyed]
    · simp [createGraphicsPipeline, h1, hv]
  · left
    refine ⟨[Call.vkCreatePipelineLayout g.device,
      Call.ifstreamOpen "F:/TEMP/ProjectVulkan/vert.spv", Call.vkCreateShaderModule g.device],
      Exit.exit 1, ?_, rfl, ?_⟩
    · simp [Call.inInit, Call.destroyed]
    · simp [createGraphicsPipeline, h1, hv]
  rcases loadShader_cases "F:/TEMP/ProjectVulkan/frag.spv" env.fragFileOpen env.fragTellg
      env.fragShaderModule { g with pipelineLayout := env.vkCreatePipelineLayout.handle } with
    ⟨ef, hef, hf⟩ | hf | ⟨hfo, -, hfr, hf⟩
  · left
    refine ⟨[Call.vkCreatePipelineLayout g.device,
      Call.ifstreamOpen "F:/TEMP/ProjectVulkan/vert.spv", Call.vkCreateShaderModule g.device,
      Call.ifstreamOpen "F:/TEMP/ProjectVulkan/frag.spv"], ef, ?_, hef, ?_⟩
    · simp [Call.inInit, Call.destroyed]
    · simp [createGraphicsPipeline, h1, hv, hf]
  · left
    refine ⟨[Call.vkCreatePipelineLayout g.device,
      Call.ifstreamOpen "F:/TEMP/ProjectVulkan/vert.spv", Call.vkCreateShaderModule g.device,
      Call.ifstreamOpen "F:/TEMP/ProjectVulkan/frag.spv", Call.vkCreateShaderModule g.device],
      Exit.exit 1, ?_, rfl, ?_⟩
    · simp [Call.inInit, Call.destroyed]
    · simp [createGraphicsPipeline, h1, hv, hf]
  by_cases h2 : env.vkCreateGraphicsPipelines.result = VK_SUCCESS
  · right; right; right
    exact ⟨h1, hvo, hvr, hfo, hfr, h2, by simp [createGraphicsPipeline, h1, hv, hf, h2]⟩
  · right; right; left
    exact ⟨h1, hvo, hvr, hfo, hfr, h2, by simp [createGraphicsPipeline, h1, hv, hf, h2]⟩


/-- The bodies of the initialisation functions issue only initialisation calls. -/
theorem initSteps_body_inInit (env : Env) :
    ∀ s ∈ initSteps env, ∀ g, ∀ c ∈ (s.2 g).calls, c.inInit = true := by
  intro s hs g
  simp only [initSteps, List.mem_cons, List.mem_singleton, List.not_mem_nil, or_false] at hs
  rcases hs with rfl | rfl | rfl | rfl | rfl | rfl | rfl | rfl | rfl | rfl
  · simp only [initWindow]
    split_ifs <;> simp [Call.inInit]
  · simp [createInstance, checkValidationLayerSupportCalls, Call.inInit]
  · simp only [setupDebugMessenger]
    split_ifs <;> simp [checkValidationLayerSupportCalls, Call.inInit]
  · simp only [pickPhysicalDevice]
    split_ifs <;> simp [Call.inInit]
  · simp only [createLogicalDevice]
    split_ifs <;> simp [Call.inInit]
  · simp only [initSyncObjects]
    split_ifs <;> simp [Call.inInit]
  · simp [createRenderPass, Call.inInit]
  · show ∀ c ∈ (createGraphicsPipeline env g).calls, c.inInit = true
    rcases createGraphicsPipeline_cases env g with ⟨cs, e, hcs, -, h⟩ | ⟨-, h⟩ |
      ⟨-, -, -, -, -, -, h⟩ | ⟨-, -, -, -, -, -, h⟩
    · rw [h]
      exact fun c hc => (hcs c hc).1
    all_goals rw [h]; simp [Call.inInit]
  · simp only [createVertexBuffer]
    split_ifs <;> simp [Call.inInit]
  · simp only [recordCommandBuffer]
    split_ifs <;> simp [Call.inInit]

/-- The initialisation functions end the process only in failure. -/
theorem initSteps_body_exit (env : Env) :
    ∀ s ∈ initSteps env, ∀ g e, (s.2 g).exit = some e → e.isFailure = true := by
  intro s hs g e
  simp only [initSteps, List.mem_cons, List.mem_singleton, List.not_mem_nil, or_false] at hs
  rcases hs with rfl | rfl | rfl | rfl | rfl | rfl | rfl | rfl | rfl | rfl
  · simp only [initWindow]
    split_ifs <;> simp <;> (rintro rfl; rfl)
  · simp only [createInstance]
    split_ifs <;> simp
    rintro rfl
    rfl
  · simp only [setupDebugMessenger]
    split_ifs <;> simp
    rintro rfl
    rfl
  · simp only [pickPhysicalDevice]
    split_ifs <;> simp <;> (rintro rfl; rfl)
  · simp only [createLogicalDevice]
    split_ifs <;> simp
    rintro rfl
    rfl
  · simp only [initSyncObjects]
    split_ifs <;> simp <;> (rintro rfl; rfl)
  · simp only [createRenderPass]
    split_ifs <;> simp
    rintro rfl
    rfl
  · show (createGraphicsPipeline env g).exit = some e → e.isFailure = true
    rcases createGraphicsPipeline_cases env g with ⟨cs, e1, -, he, h⟩ | ⟨-, h⟩ |
      ⟨-, -, -, -, -, -, h⟩ | ⟨-, -, -, -, -, -, h⟩
    · rw [h]
      simp only [Option.some.injEq]
      rintro rfl
      exact he
    all_goals rw [h]; simp
    rintro rfl
    rfl
  · simp only [createVertexBuffer]
    split_ifs <;> simp <;> (rintro rfl; rfl)
  · simp only [recordCommandBuffer]
    split_ifs <;> simp <;> (rintro rfl; rfl)

/-! ## The frame: `drawFrame` -/

/-- C2: when no driver call of the frame fails, `drawFrame` issues exactly the
five calls wait, reset, acquire, submit, present, in this order and once each,
and returns; the timeout of the wait is the largest value a `uint64_t` holds. -/
theorem drawFrame_calls_in_order (env : Env) (fr : FrameEnv) (g : Globals)
    (h : fr.noFailure) :
    (drawFrame env fr g).calls =
      [Call.vkWaitForFences g.device [g.fence] true UINT64_MAX,
       Call.vkResetFences g.device [g.fence],
       Call.vkAcquireNextImageKHR g.device env.swapChain UINT64_MAX
         g.imageAvailableSemaphore VK_NULL_HANDLE,
       Call.vkQueueSubmit g.graphicsQueue (submitInfo g) g.fence,
       Call.vkQueuePresentKHR g.graphicsQueue (presentInfo env g fr.imageIndex)] ∧
    (drawFrame env fr g).exit = none ∧
    (∀ timeout : Nat, timeout < 2 ^ 64 → timeout ≤ UINT64_MAX) := by
  obtain ⟨-, -, -, hs, -⟩ := h
  refine ⟨?_, ?_, ?_⟩
  · simp [drawFrame, hs]
  · simp [drawFrame, hs]
  · intro t ht
    simp only [UINT64_MAX]
    omega

/-- Witness of C2: the frame `frameOk` in the run `envOk`. -/
theorem drawFrame_calls_in_order_witness :
    frameOk.noFailure ∧
    (drawFrame envOk frameOk globalsOk).calls =
      [Call.vkWaitForFences 5 [9] true 18446744073709551615,
       Call.vkResetFences 5 [9],
       Call.vkAcquireNextImageKHR 5 18 18446744073709551615 7 0,
       Call.vkQueueSubmit 6
         { pWaitSemaphores := [7], pWaitDstStageMask := [1024], pCommandBuffers := [0],
           pSignalSemaphores := [8] } 9,
       Call.vkQueuePresentKHR 6
         { pWaitSemaphores := [8], pSwapchains := [18], pImageIndices := [2] }] :=
  have h : frameOk.noFailure := by decide
  ⟨h, (drawFrame_calls_in_order envOk frameOk globalsOk h).1⟩

/-- C3: the semaphore chain of one frame.  In a frame whose submission is
accepted, the calls after the fence reset are an acquire that signals the
image-available semaphore, a submission that waits on exactly that semaphore at
the color-attachment-output stage and signals exactly the render-finished
semaphore and the in-flight fence, and a present that waits on exactly the
render-finished semaphore and targets the image index left by the acquire. -/
theorem drawFrame_semaphore_chain (env : Env) (fr : FrameEnv) (g : Globals)
    (h : fr.vkQueueSubmit = VK_SUCCESS) :
    ∃ (wait reset : Call) (queue : Handle) (submit : SubmitInfo) (present : PresentInfo),
      (drawFrame env fr g).calls =
        [wait, reset,
         Call.vkAcquireNextImageKHR g.device env.swapChain UINT64_MAX
           g.imageAvailableSemaphore VK_NULL_HANDLE,
         Call.vkQueueSubmit queue submit g.fence,
         Call.vkQueuePresentKHR queue present] ∧
      submit.pWaitSemaphores = [g.imageAvailableSemaphore] ∧
      submit.pWaitDstStageMask = [VK_PIPELINE_STAGE_COLOR_ATTACHMENT_OUTPUT_BIT] ∧
      submit.pSignalSemaphores = [g.renderFinishedSemaphore] ∧
      present.pWaitSemaphores = [g.renderFinishedSemaphore] ∧
      present.pImageIndices = [fr.imageIndex] :=
  ⟨Call.vkWaitForFences g.device [g.fence] true UINT64_MAX,
    Call.vkResetFences g.device [g.fence], g.graphicsQueue, submitInfo g,
    presentInfo env g fr.imageIndex, by simp [drawFrame, h], rfl, rfl, rfl, rfl, rfl⟩

/-- Witness of C3: the frame `frameOk` in the run `envOk`; the acquire signals
semaphore 7, the submission waits on 7 and signals 8, the present waits on 8
and targets image 2. -/
theorem drawFrame_semaphore_chain_witness :
    frameOk.vkQueueSubmit = VK_SUCCESS ∧
    ∃ (wait reset : Call) (queue : Handle) (submit : SubmitInfo) (present : PresentInfo),
      (drawFrame envOk frameOk globalsOk).calls =
        [wait, reset, Call.vkAcquireNextImageKHR 5 18 UINT64_MAX 7 0,
         Call.vkQueueSubmit queue submit 9, Call.vkQueuePresentKHR queue present] ∧
      submit.pWaitSemaphores = [7] ∧
      submit.pWaitDstStageMask = [VK_PIPELINE_STAGE_COLOR_ATTACHMENT_OUTPUT_BIT] ∧
      submit.pSignalSemaphores = [8] ∧
      present.pWaitSemaphores = [8] ∧
      present.pImageIndices = [2] :=
  ⟨rfl, drawFrame_semaphore_chain envOk frameOk globalsOk rfl⟩

/-- Every call of the initialisation part is the call of an initialisation
function or an initialisation call issued by one of them. -/
theorem mainInit_calls (env : Env) (c : Call) (hc : c ∈ (mainInit env).calls) :
    c.inInit = true ∨ ∃ s ∈ initSteps env, c = Call.fn s.1 :=
  runSteps_calls (fun c => c.inInit = true ∨ ∃ s ∈ initSteps env, c = Call.fn s.1)
    (initSteps env) (fun s hs => Or.inr ⟨s, hs, rfl⟩)
    (fun s hs g c hc => Or.inl (initSteps_body_inInit env s hs g c hc)) Globals.init c hc

/-- The initialisation part ends the process only in failure. -/
theorem mainInit_exit (env : Env) (e : Exit) (h : (mainInit env).exit = some e) :
    e.isFailure = true :=
  runSteps_exit (fun e => e.isFailure = true) (initSteps env) (initSteps_body_exit env)
    Globals.init e h

/-- When the initialisation part ends the process, that is all `main` does. -/
theorem main_of_mainInit_exit (env : Env) (e : Exit) (h : (mainInit env).exit = some e) :
    main env = mainInit env := by
  unfold main
  rw [Out.andThen_of_exit_some _ h, Out.andThen_of_exit_some _ h]

/-! ## Validation layers and adapters -/

theorem layerFound_iff (layerName : String) (availableLayers : List String) :
    layerFound layerName availableLayers = true ↔ layerName ∈ availableLayers := by
  induction availableLayers with
  | nil => simp [layerFound]
  | cons p rest ih =>
    by_cases h : layerName = p
    · simp [layerFound, h]
    · simp [layerFound, h, ih]

theorem checkLayers_iff (availableLayers layers : List String) :
    checkLayers availableLayers layers = true ↔ ∀ n ∈ layers, n ∈ availableLayers := by
  induction layers with
  | nil => simp [checkLayers]
  | cons n rest ih =>
    by_cases h : layerFound n availableLayers = true
    · have h1 := (layerFound_iff n availableLayers).1 h
      simp [checkLayers, h, ih, h1]
    · have h1 : n ∉ availableLayers := fun hm => h ((layerFound_iff n availableLayers).2 hm)
      simp [checkLayers, h, h1]

/-- C9: validation-layer soft degradation.  For every list of available layers,
`checkValidationLayerSupport` returns true exactly when every name in
`validationLayers` (the single name `VK_LAYER_KHRONOS_validation`) is the name
of an available layer; the one `vkCreateInstance` call of `createInstance`
carries `enabledLayerCount` 1 when it returns true and 0 when it returns false;
and when it returns false, `createInstance` fails only if `vkCreateInstance`
itself does, and `setupDebugMessenger` returns to its caller without creating a
messenger and without touching the globals. -/
theorem validation_layer_soft_degradation (env : Env) (g : Globals) :
    (checkValidationLayerSupport env = true ↔
      ∀ layerName ∈ validationLayers, layerName ∈ env.availableLayers) ∧
    validationLayers = ["VK_LAYER_KHRONOS_validation"] ∧
    (∃ pre info, (createInstance env g).calls = pre ++ [Call.vkCreateInstance info] ∧
      (∀ c ∈ pre, ∀ i, c ≠ Call.vkCreateInstance i) ∧
      info.enabledLayerCount = (if checkValidationLayerSupport env = true then 1 else 0)) ∧
    (checkValidationLayerSupport env = false →
      ((createInstance env g).exit = none ↔ env.vkCreateInstance.result = VK_SUCCESS) ∧
      (setupDebugMessenger env g).exit = none ∧
      (setupDebugMessenger env g).g = g ∧
      ∀ inst, Call.vkCreateDebugUtilsMessengerEXT inst ∉ (setupDebugMessenger env g).calls) := by
  refine ⟨checkLayers_iff _ _, rfl, ?_, ?_⟩
  · refine ⟨checkValidationLayerSupportCalls ++ checkValidationLayerSupportCalls ++
      [Call.vkEnumerateInstanceExtensionProperties, Call.vkEnumerateInstanceExtensionProperties],
      instanceCreateInfo env, ?_, ?_, ?_⟩
    · simp [createInstance]
    · simp [checkValidationLayerSupportCalls]
    · by_cases h : checkValidationLayerSupport env = true <;>
        simp [instanceCreateInfo, h, validationLayers]
  · intro h
    refine ⟨?_, ?_, ?_, ?_⟩
    · by_cases hr : env.vkCreateInstance.result = VK_SUCCESS <;> simp [createInstance, hr]
    · simp [setupDebugMessenger, h]
    · simp [setupDebugMessenger, h]
    · simp [setupDebugMessenger, h, checkValidationLayerSupportCalls]

/-- Witness of the unavailable case of C9: in the run `envNoLayers` the layer is
not installed, the instance is created with `enabledLayerCount` 0,
`setupDebugMessenger` returns, and `main` runs to its clean end. -/
theorem validation_layer_soft_degradation_witness :
    checkValidationLayerSupport envNoLayers = false ∧
    (createInstance envNoLayers Globals.init).exit = none ∧
    (setupDebugMessenger envNoLayers Globals.init).exit = none ∧
    Call.vkCreateInstance
      { enabledLayerCount := 0, ppEnabledLayerNames := [],
        ppEnabledExtensionNames := ["VK_KHR_surface", "VK_EXT_debug_utils"] } ∈
      (main envNoLayers).calls ∧
    (main envNoLayers).exit = some (Exit.returned 0) :=
  have h : checkValidationLayerSupport envNoLayers = false := by decide
  have t := (validation_layer_soft_degradation envNoLayers Globals.init).2.2.2 h
  ⟨h, t.1.2 rfl, t.2.1, List.getElem?_mem (rfl : (main envNoLayers).calls[13]? = _),
    by decide⟩

theorem runSteps_stops (pre post : List (Fn × (Globals → Out))) (s : Fn × (Globals → Out))
    (hs : ∀ g, (s.2 g).exit ≠ none) (g : Globals) :
    runSteps (pre ++ s :: post) g = runSteps (pre ++ [s]) g := by
  rw [runSteps_append, runSteps_append]
  congr 1
  funext g1
  obtain ⟨e, he⟩ := Option.ne_none_iff_exists'.1 (hs g1)
  have h1 : (invoke s.1 s.2 g1).exit = some e := he
  simp only [runSteps]
  rw [Out.andThen_of_exit_some _ h1, Out.andThen_of_exit_some _ h1]

/-- C10: zero adapters.  When the enumeration reports a device count of 0,
`pickPhysicalDevice` calls `exit(1)`; in `main` none of the later
initialisation functions and no frame is called, the process ends in failure,
and if `pickPhysicalDevice` was reached it ends by that `exit(1)`. -/
theorem zero_adapters_stop_initialisation (env : Env) (g : Globals)
    (h : env.deviceCount = 0) :
    (pickPhysicalDevice env g).exit = some (Exit.exit 1) ∧
    (∀ f ∈ laterSteps, Call.fn f ∉ (main env).calls) ∧
    (∀ c ∈ (main env).calls, c.inInit = true ∨
      c ∈ [Call.fn Fn.initWindow, Call.fn Fn.createInstance, Call.fn Fn.setupDebugMessenger,
           Call.fn Fn.pickPhysicalDevice]) ∧
    (∃ e, (main env).exit = some e ∧ e.isFailure = true) ∧
    (Call.fn Fn.pickPhysicalDevice ∈ (main env).calls →
      (main env).exit = some (Exit.exit 1)) := by
  have hp : ∀ g, (pickPhysicalDevice env g).exit = some (Exit.exit 1) := by
    intro g
    simp [pickPhysicalDevice, h]
  have hstop : mainInit env =
      (runSteps [(Fn.initWindow, initWindow env), (Fn.createInstance, createInstance env),
        (Fn.setupDebugMessenger, setupDebugMessenger env)] Globals.init).andThen
        (runSteps [(Fn.pickPhysicalDevice, pickPhysicalDevice env)]) := by
    rw [← runSteps_append]
    exact runSteps_stops [(Fn.initWindow, initWindow env), (Fn.createInstance, createInstance env),
        (Fn.setupDebugMessenger, setupDebugMessenger env)] _
      (Fn.pickPhysicalDevice, pickPhysicalDevice env) (fun g => by simp [hp g]) Globals.init
  have hpre : ∀ c ∈ (runSteps [(Fn.initWindow, initWindow env),
      (Fn.createInstance, createInstance env),
      (Fn.setupDebugMessenger, setupDebugMessenger env)] Globals.init).calls,
      c.inInit = true ∨ c ∈ [Call.fn Fn.initWindow, Call.fn Fn.createInstance,
        Call.fn Fn.setupDebugMessenger] := by
    apply runSteps_calls
    · intro s hs
      simp only [List.mem_cons, List.mem_singleton, List.not_mem_nil, or_false] at hs
      rcases hs with rfl | rfl | rfl <;> simp
    · intro s hs g c hc
      exact Or.inl (initSteps_body_inInit env s (by
        simp only [List.mem_cons, List.mem_singleton, List.not_mem_nil, or_false] at hs
        rcases hs with rfl | rfl | rfl <;> simp [initSteps]) g c hc)
  have hinit : ∃ e, (mainInit env).exit = some e := by
    rw [hstop]
    cases hA : (runSteps [(Fn.initWindow, initWindow env), (Fn.createInstance, createInstance env),
      (Fn.setupDebugMessenger, setupDebugMessenger env)] Globals.init).exit with
    | some e => exact ⟨e, by rw [Out.andThen_of_exit_some _ hA, hA]⟩
    | none =>
      refine ⟨Exit.exit 1, ?_⟩
      rw [Out.andThen_exit_of_none _ hA]
      simp [runSteps, invoke, Out.andThen, hp]
  obtain ⟨e, he⟩ := hinit
  have hmain : main env = mainInit env := main_of_mainInit_exit env e he
  have hcalls : ∀ c ∈ (main env).calls, c.inInit = true ∨
      c ∈ [Call.fn Fn.initWindow, Call.fn Fn.createInstance, Call.fn Fn.setupDebugMessenger,
           Call.fn Fn.pickPhysicalDevice] := by
    intro c hc
    rw [hmain, hstop] at hc
    rcases Out.mem_andThen_calls hc with hc | ⟨-, hc⟩
    · rcases hpre c hc with h1 | h1
      · exact Or.inl h1
      · right
        simp only [List.mem_cons, List.mem_singleton, List.not_mem_nil, or_false] at h1 ⊢
        tauto
    · simp only [runSteps, invoke, Out.andThen] at hc
      simp only [pickPhysicalDevice, h, if_true] at hc
      simp at hc
      rcases hc with rfl | rfl
      · right; simp
      · left; rfl
  refine ⟨hp g, ?_, hcalls, ⟨e, by rw [hmain]; exact he, mainInit_exit env e he⟩, ?_⟩
  · intro f hf hmem
    rcases hcalls _ hmem with h1 | h1
    · simp [Call.inInit] at h1
    · simp only [laterSteps, List.mem_cons, List.mem_singleton, List.not_mem_nil, or_false] at hf
      rcases hf with rfl | rfl | rfl | rfl | rfl | rfl | rfl <;> simp at h1
  · intro hmem
    rw [hmain, hstop] at hmem ⊢
    cases hA : (runSteps [(Fn.initWindow, initWindow env), (Fn.createInstance, createInstance env),
      (Fn.setupDebugMessenger, setupDebugMessenger env)] Globals.init).exit with
    | some e1 =>
      rw [Out.andThen_of_exit_some _ hA] at hmem
      rcases hpre _ hmem with h1 | h1
      · simp [Call.inInit] at h1
      · simp at h1
    | none =>
      rw [Out.andThen_exit_of_none _ hA]
      simp [runSteps, invoke, Out.andThen, hp]

/-- Witness of C10: in the run `envNoAdapter` the enumeration reports no
adapter; `main` reaches `pickPhysicalDevice` and ends by `exit(1)` without
creating a logical device. -/
theorem zero_adapters_stop_initialisation_witness :
    envNoAdapter.deviceCount = 0 ∧
    Call.fn Fn.pickPhysicalDevice ∈ (main envNoAdapter).calls ∧
    (main envNoAdapter).exit = some (Exit.exit 1) ∧
    Call.fn Fn.createLogicalDevice ∉ (main envNoAdapter).calls :=
  have t := zero_adapters_stop_initialisation envNoAdapter Globals.init rfl
  have hmem : Call.fn Fn.pickPhysicalDevice ∈ (main envNoAdapter).calls :=
    List.getElem?_mem (rfl : (main envNoAdapter).calls[19]? = _)
  ⟨rfl, hmem, t.2.2.2.2 hmem, t.2.1 Fn.createLogicalDevice (by decide)⟩


/-! ## The globals after a complete initialisation -/

theorem runSteps_cons_of_exit_none {s : Fn × (Globals → Out)}
    {rest : List (Fn × (Globals → Out))} {g : Globals}
    (h : (runSteps (s :: rest) g).exit = none) :
    (s.2 g).exit = none ∧ (runSteps rest (s.2 g).g).exit = none ∧
    (runSteps (s :: rest) g).g = (runSteps rest (s.2 g).g).g ∧
    (runSteps (s :: rest) g).calls =
      Call.fn s.1 :: ((s.2 g).calls ++ (runSteps rest (s.2 g).g).calls) := by
  simp only [runSteps] at h ⊢
  have h1 := (Out.andThen_exit_eq_none.1 h).1
  have h2 := (Out.andThen_exit_eq_none.1 h).2
  refine ⟨h1, h2, ?_, ?_⟩
  · rw [Out.andThen_g_of_none _ h1]
    rfl
  · rw [Out.andThen_calls_of_none _ h1]
    rfl

theorem initWindow_g (env : Env) (g : Globals) (h : (initWindow env g).exit = none) :
    (initWindow env g).g = { g with window := env.glfwCreateWindow } := by
  simp only [initWindow] at h ⊢
  split_ifs at h ⊢
  simp_all

theorem createInstance_g (env : Env) (g : Globals) :
    (createInstance env g).g = { g with vkInstance := env.vkCreateInstance.handle } := rfl

theorem setupDebugMessenger_g (env : Env) (g : Globals)
    (h : (setupDebugMessenger env g).exit = none) :
    (setupDebugMessenger env g).g =
      { g with debugMessenger :=
                 if checkValidationLayerSupport env = true ∧
                    env.createDebugUtilsMessengerAddr = true
                 then env.vkCreateDebugUtilsMessengerEXT.handle else g.debugMessenger } := by
  simp only [setupDebugMessenger] at h ⊢
  split_ifs at h ⊢ <;> simp_all

theorem pickPhysicalDevice_g (env : Env) (g : Globals)
    (h : (pickPhysicalDevice env g).exit = none) :
    (pickPhysicalDevice env g).g =
      { g with physicalDevice := pickLoop g.physicalDevice (enumeratedDevices env) } := by
  simp only [pickPhysicalDevice] at h ⊢
  split_ifs at h ⊢
  simp_all

theorem createLogicalDevice_g (env : Env) (g : Globals)
    (h : (createLogicalDevice env g).exit = none) :
    (createLogicalDevice env g).g =
      { g with device := env.vkCreateDevice.handle, graphicsQueue := env.graphicsQueue,
               presentQueue := env.presentQueue } := by
  simp only [createLogicalDevice] at h ⊢
  split_ifs at h ⊢
  simp_all

theorem initSyncObjects_g (env : Env) (g : Globals)
    (h : (initSyncObjects env g).exit = none) :
    (initSyncObjects env g).g =
      { g with imageAvailableSemaphore := env.imageAvailableSemaphore.handle,
               renderFinishedSemaphore := env.renderFinishedSemaphore.handle,
               fence := env.vkCreateFence.handle } := by
  simp only [initSyncObjects] at h ⊢
  split_ifs at h ⊢
  simp_all

theorem createRenderPass_g (env : Env) (g : Globals) :
    (createRenderPass env g).g = { g with renderPass := env.vkCreateRenderPass.handle } := rfl

theorem createGraphicsPipeline_g (env : Env) (g : Globals)
    (h : (createGraphicsPipeline env g).exit = none) :
    (createGraphicsPipeline env g).g =
      { g with pipelineLayout := env.vkCreatePipelineLayout.handle,
               graphicsPipeline := if env.vkCreatePipelineLayout.result = VK_SUCCESS
                 then env.vkCreateGraphicsPipelines.handle else g.graphicsPipeline } := by
  rcases createGraphicsPipeline_cases env g with ⟨cs, e1, -, -, h1⟩ | ⟨hr, h1⟩ |
    ⟨-, -, -, -, -, -, h1⟩ | ⟨hr, -, -, -, -, -, h1⟩
  · rw [h1] at h
    simp at h
  · rw [h1]
    simp [hr]
  · rw [h1] at h
    simp at h
  · rw [h1]
    simp [hr]

theorem createVertexBuffer_g (env : Env) (g : Globals)
    (h : (createVertexBuffer env g).exit = none) :
    (createVertexBuffer env g).g =
      { g with vertexBuffer := env.vkCreateBuffer.handle,
               vertexBufferMemory := env.vkAllocateMemory.handle } := by
  simp only [createVertexBuffer] at h ⊢
  split_ifs at h ⊢
  simp_all

theorem recordCommandBuffer_g (env : Env) (g : Globals) :
    (recordCommandBuffer env g).g = g := by
  simp only [recordCommandBuffer]
  split_ifs <;> rfl

/-- After a complete initialisation the globals hold the handles the
environment handed out. -/
theorem mainInit_g (env : Env) (h : (mainInit env).exit = none) :
    (mainInit env).g = initGlobals env := by
  unfold mainInit initSteps at h ⊢
  obtain ⟨h1, h, hg, -⟩ := runSteps_cons_of_exit_none h
  rw [hg]; clear hg
  simp only [initWindow_g env _ h1] at h ⊢
  obtain ⟨h2, h, hg, -⟩ := runSteps_cons_of_exit_none h
  rw [hg]; clear hg
  simp only [createInstance_g] at h ⊢
  obtain ⟨h3, h, hg, -⟩ := runSteps_cons_of_exit_none h
  rw [hg]; clear hg
  simp only [setupDebugMessenger_g env _ h3] at h ⊢
  obtain ⟨h4, h, hg, -⟩ := runSteps_cons_of_exit_none h
  rw [hg]; clear hg
  simp only [pickPhysicalDevice_g env _ h4] at h ⊢
  obtain ⟨h5, h, hg, -⟩ := runSteps_cons_of_exit_none h
  rw [hg]; clear hg
  simp only [createLogicalDevice_g env _ h5] at h ⊢
  obtain ⟨h6, h, hg, -⟩ := runSteps_cons_of_exit_none h
  rw [hg]; clear hg
  simp only [initSyncObjects_g env _ h6] at h ⊢
  obtain ⟨h7, h, hg, -⟩ := runSteps_cons_of_exit_none h
  rw [hg]; clear hg
  simp only [createRenderPass_g] at h ⊢
  obtain ⟨h8, h, hg, -⟩ := runSteps_cons_of_exit_none h
  rw [hg]; clear hg
  simp only [createGraphicsPipeline_g env _ h8] at h ⊢
  obtain ⟨h9, h, hg, -⟩ := runSteps_cons_of_exit_none h
  rw [hg]; clear hg
  simp only [createVertexBuffer_g env _ h9] at h ⊢
  obtain ⟨h10, h, hg, -⟩ := runSteps_cons_of_exit_none h
  rw [hg]; clear hg
  simp only [recordCommandBuffer_g, runSteps]
  rfl

/-! ## Splitting a trace at a call -/

theorem split_cons_of_not {P : Call → Prop} {x s : Call} {l pre post : List Call}
    (hs : P s) (hx : ¬ P x) (h : x :: l = pre ++ s :: post) :
    ∃ pre1, pre = x :: pre1 ∧ l = pre1 ++ s :: post := by
  cases pre with
  | nil =>
    simp only [List.nil_append, List.cons.injEq] at h
    exact absurd (h.1 ▸ hs) hx
  | cons y pre1 =>
    simp only [List.cons_append, List.cons.injEq] at h
    exact ⟨pre1, by rw [h.1], h.2⟩

theorem split_append_of_not {P : Call → Prop} {s : Call} (hs : P s) (front : List Call) :
    ∀ {l pre post : List Call}, (∀ c ∈ front, ¬ P c) → front ++ l = pre ++ s :: post →
      ∃ pre1, pre = front ++ pre1 ∧ l = pre1 ++ s :: post := by
  induction front with
  | nil =>
    intro l pre post _ h
    exact ⟨pre, rfl, h⟩
  | cons x front ih =>
    intro l pre post hfront h
    obtain ⟨p1, hp1, h1⟩ := split_cons_of_not hs (hfront x (List.mem_cons_self _ _)) h
    obtain ⟨p2, hp2, h2⟩ := ih (fun c hc => hfront c (List.mem_cons_of_mem _ hc)) h1
    exact ⟨p2, by rw [hp1, hp2]; rfl, h2⟩

theorem split_append_right_of_not {P : Call → Prop} {s : Call} (hs : P s)
    {l back pre post : List Call} (hback : ∀ c ∈ back, ¬ P c)
    (h : l ++ back = pre ++ s :: post) :
    ∃ post1, l = pre ++ s :: post1 ∧ post = post1 ++ back := by
  rcases List.append_eq_append_iff.1 h with ⟨a, rfl, ha⟩ | ⟨c, rfl, hc⟩
  · exact absurd hs (hback s (by rw [ha]; simp))
  · cases c with
    | nil =>
      simp only [List.nil_append] at hc
      exact absurd hs (hback s (by rw [← hc]; simp))
    | cons y c1 =>
      simp only [List.cons_append, List.cons.injEq] at hc
      obtain ⟨rfl, rfl⟩ := hc
      exact ⟨c1, rfl, rfl⟩

/-! ## The main loop -/

theorem mainLoop_g (env : Env) (g : Globals) (frames : List FrameEnv) :
    (mainLoop env g frames).g = g := by
  induction frames with
  | nil => rfl
  | cons fr rest ih =>
    simp only [mainLoop]
    split
    · rfl
    · exact ih

/-- The calls of a loop that has at least one iteration left. -/
theorem mainLoop_cons_calls (env : Env) (g : Globals) (fr : FrameEnv) (rest : List FrameEnv) :
    ∃ tail, (mainLoop env g (fr :: rest)).calls =
      [Call.glfwWindowShouldClose g.window, Call.fn Fn.drawFrame,
       Call.vkWaitForFences g.device [g.fence] true UINT64_MAX,
       Call.vkResetFences g.device [g.fence],
       Call.vkAcquireNextImageKHR g.device env.swapChain UINT64_MAX
         g.imageAvailableSemaphore VK_NULL_HANDLE] ++
      Call.vkQueueSubmit g.graphicsQueue (submitInfo g) g.fence :: tail ∧
      (tail = [] ∨ tail =
        Call.vkQueuePresentKHR g.graphicsQueue (presentInfo env g fr.imageIndex) ::
          Call.glfwPollEvents :: (mainLoop env g rest).calls) := by
  by_cases hs : fr.vkQueueSubmit = VK_SUCCESS
  · exact ⟨_, by simp [mainLoop, drawFrame, hs], Or.inr rfl⟩
  · exact ⟨[], by simp [mainLoop, drawFrame, hs], Or.inl rfl⟩

/-- In the main loop every queue submission signals the in-flight fence and
comes after a wait on that fence and its reset, with no submission in between. -/
theorem mainLoop_submit_after_wait (env : Env) (g : Globals) (frames : List FrameEnv) :
    ∀ (pre post : List Call) (q : Handle) (si : SubmitInfo) (f : Handle),
      (mainLoop env g frames).calls = pre ++ Call.vkQueueSubmit q si f :: post →
      f = g.fence ∧ ∃ a b,
        pre = a ++ Call.vkWaitForFences g.device [g.fence] true UINT64_MAX ::
          Call.vkResetFences g.device [g.fence] :: b ∧
        ∀ c ∈ b, c.isSubmit = false := by
  induction frames with
  | nil =>
    intro pre post q si f h
    simp only [mainLoop] at h
    have hmem : Call.vkQueueSubmit q si f ∈ [Call.glfwWindowShouldClose g.window] := by
      rw [h]; simp
    simp at hmem
  | cons fr rest ih =>
    intro pre post q si f h
    obtain ⟨tail, hcalls, htail⟩ := mainLoop_cons_calls env g fr rest
    rw [hcalls] at h
    have hsub : (Call.vkQueueSubmit q si f).isSubmit = true := rfl
    obtain ⟨p1, hp1, h1⟩ := split_append_of_not (P := fun c => c.isSubmit = true) hsub _
      (by simp [Call.isSubmit]) h
    cases p1 with
    | nil =>
      simp only [List.nil_append, List.cons.injEq, Call.vkQueueSubmit.injEq] at h1
      obtain ⟨⟨-, -, hf⟩, -⟩ := h1
      refine ⟨hf.symm, [Call.glfwWindowShouldClose g.window, Call.fn Fn.drawFrame],
        [Call.vkAcquireNextImageKHR g.device env.swapChain UINT64_MAX
          g.imageAvailableSemaphore VK_NULL_HANDLE], ?_, ?_⟩
      · rw [hp1]; rfl
      · simp [Call.isSubmit]
    | cons y p2 =>
      simp only [List.cons_append, List.cons.injEq] at h1
      obtain ⟨-, h2⟩ := h1
      rcases htail with rfl | rfl
      · cases p2 <;> simp at h2
      · obtain ⟨p3, hp3, h3⟩ := split_append_of_not (P := fun c => c.isSubmit = true) hsub
          [Call.vkQueuePresentKHR g.graphicsQueue (presentInfo env g fr.imageIndex),
           Call.glfwPollEvents] (by simp [Call.isSubmit]) h2
        obtain ⟨hf, a, b, hab, hb⟩ := ih p3 post q si f h3
        refine ⟨hf, [Call.glfwWindowShouldClose g.window, Call.fn Fn.drawFrame,
          Call.vkWaitForFences g.device [g.fence] true UINT64_MAX,
          Call.vkResetFences g.device [g.fence],
          Call.vkAcquireNextImageKHR g.device env.swapChain UINT64_MAX
            g.imageAvailableSemaphore VK_NULL_HANDLE, y,
          Call.vkQueuePresentKHR g.graphicsQueue (presentInfo env g fr.imageIndex),
          Call.glfwPollEvents] ++ a, b, ?_, hb⟩
        rw [hp1, hp3, hab]
        simp

/-- The teardown issues neither a submission nor a wait. -/
theorem teardown_no_submit_no_wait (env : Env) (g : Globals) :
    ∀ c ∈ teardown env g, c.isSubmit = false ∧ c.isGpuWait = false := by
  simp only [teardown, List.forall_mem_append]
  refine ⟨⟨⟨⟨⟨⟨?_, ?_⟩, ?_⟩, ?_⟩, ?_⟩, ?_⟩, ?_⟩ <;> (try split_ifs) <;>
    simp [Call.isSubmit, Call.isGpuWait]

/-- The three ways `main` can run: the initialisation ends the process; the
loop ends it; or the loop is left and the teardown runs. -/
theorem main_cases (env : Env) :
    (∃ e, (mainInit env).exit = some e ∧ main env = mainInit env) ∨
    ((mainInit env).exit = none ∧ (mainInit env).g = initGlobals env ∧
      ∃ e, (mainLoop env (initGlobals env) env.frames).exit = some e ∧
        (main env).exit = some e ∧
        (main env).calls = (mainInit env).calls ++
          (mainLoop env (initGlobals env) env.frames).calls) ∨
    ((mainInit env).exit = none ∧ (mainInit env).g = initGlobals env ∧
      (mainLoop env (initGlobals env) env.frames).exit = none ∧
      (main env).exit = some (Exit.returned 0) ∧
      (main env).calls = (mainInit env).calls ++
        ((mainLoop env (initGlobals env) env.frames).calls ++
          teardown env (initGlobals env))) := by
  cases hI : (mainInit env).exit with
  | some e => exact Or.inl ⟨e, rfl, main_of_mainInit_exit env e hI⟩
  | none =>
    right
    have hg := mainInit_g env hI
    cases hL : (mainLoop env (initGlobals env) env.frames).exit with
    | some e =>
      left
      refine ⟨rfl, hg, e, rfl, ?_, ?_⟩ <;> simp [main, Out.andThen, hI, hg, hL]
    | none =>
      right
      refine ⟨rfl, hg, rfl, ?_, ?_⟩ <;> simp [main, Out.andThen, hI, hg, hL, mainLoop_g]

/-- A call that is neither an initialisation call, nor a call of one of the
program's functions, nor a teardown call, is found in the loop part of the
trace of `main`. -/
theorem main_split_loop (env : Env) (P : Call → Prop) (hinit : ∀ c, c.inInit = true → ¬ P c)
    (hfn : ∀ f, ¬ P (Call.fn f)) (htear : ∀ c ∈ teardown env (initGlobals env), ¬ P c)
    {pre post : List Call} {s : Call} (hs : P s)
    (h : (main env).calls = pre ++ s :: post) :
    (mainInit env).exit = none ∧ ∃ pre1 post1,
      pre = (mainInit env).calls ++ pre1 ∧
      (mainLoop env (initGlobals env) env.frames).calls = pre1 ++ s :: post1 ∧
      ((∃ e, (mainLoop env (initGlobals env) env.frames).exit = some e ∧
          (main env).exit = some e ∧ post = post1) ∨
       ((mainLoop env (initGlobals env) env.frames).exit = none ∧
          post = post1 ++ teardown env (initGlobals env))) := by
  have hI : ∀ c ∈ (mainInit env).calls, ¬ P c := by
    intro c hc
    rcases mainInit_calls env c hc with h1 | ⟨t, -, rfl⟩
    · exact hinit c h1
    · exact hfn _
  rcases main_cases env with ⟨e, -, hm⟩ | ⟨hn, -, e, hle, hme, hc⟩ | ⟨hn, -, hln, -, hc⟩
  · rw [hm] at h
    exact absurd hs (hI s (by rw [h]; simp))
  · rw [hc] at h
    obtain ⟨p1, hp1, h1⟩ := split_append_of_not hs _ hI h
    exact ⟨hn, p1, post, hp1, h1, Or.inl ⟨e, hle, hme, rfl⟩⟩
  · rw [hc] at h
    obtain ⟨p1, hp1, h1⟩ := split_append_of_not hs _ hI h
    obtain ⟨q1, hq1, hq2⟩ := split_append_right_of_not hs htear h1
    exact ⟨hn, p1, q1, hp1, hq1, Or.inr ⟨hln, hq2⟩⟩

/-- After a complete run of a list of steps, every step has been run to its end
and its calls are in the trace. -/
theorem runSteps_reaches (steps : List (Fn × (Globals → Out))) :
    ∀ g, (runSteps steps g).exit = none → ∀ s ∈ steps,
      ∃ g1, (s.2 g1).exit = none ∧ ∀ c ∈ (s.2 g1).calls, c ∈ (runSteps steps g).calls := by
  induction steps with
  | nil => intro g _ s hs; simp at hs
  | cons t rest ih =>
    intro g h s hs
    obtain ⟨h1, h2, -, hc⟩ := runSteps_cons_of_exit_none h
    rcases List.mem_cons.1 hs with rfl | hs
    · exact ⟨g, h1, fun c hc1 => by rw [hc]; simp [hc1]⟩
    · obtain ⟨g1, hg1, hmem⟩ := ih _ h2 s hs
      exact ⟨g1, hg1, fun c hc1 => by rw [hc]; simp [hmem c hc1]⟩

/-- A complete initialisation has created the fence, in the signaled state. -/
theorem mainInit_creates_fence (env : Env) (h : (mainInit env).exit = none) :
    ∃ d, Call.vkCreateFence d VK_FENCE_CREATE_SIGNALED_BIT ∈ (mainInit env).calls := by
  obtain ⟨g1, hg1, hmem⟩ := runSteps_reaches (initSteps env) Globals.init h
    (Fn.initSyncObjects, initSyncObjects env) (by simp [initSteps])
  refine ⟨g1.device, hmem _ ?_⟩
  simp only [initSyncObjects] at hg1 ⊢
  split_ifs at hg1 ⊢
  simp_all

/-! ## Fence discipline -/

/-- Every queue submission of a run of `main` signals the fence created by
`initSyncObjects` and comes after a wait on that fence and its reset, with no
submission in between; the fence was created, signaled, before that wait. -/
theorem main_submit_after_wait (env : Env) (pre post : List Call) (q : Handle)
    (si : SubmitInfo) (f : Handle)
    (h : (main env).calls = pre ++ Call.vkQueueSubmit q si f :: post) :
    f = env.vkCreateFence.handle ∧
    ∃ a b d,
      pre = a ++ Call.vkWaitForFences d [f] true UINT64_MAX :: Call.vkResetFences d [f] :: b ∧
      (∀ c ∈ b, c.isSubmit = false) ∧
      (∃ d0, Call.vkCreateFence d0 VK_FENCE_CREATE_SIGNALED_BIT ∈ a) := by
  obtain ⟨hn, p1, q1, hp1, hL, -⟩ := main_split_loop env (fun c => c.isSubmit = true)
    (fun c hc => by cases c <;> simp_all [Call.inInit, Call.isSubmit])
    (fun f => by simp [Call.isSubmit])
    (fun c hc => by simp [(teardown_no_submit_no_wait env _ c hc).1])
    (show (Call.vkQueueSubmit q si f).isSubmit = true from rfl) h
  obtain ⟨hf, a, b, hab, hb⟩ := mainLoop_submit_after_wait env _ env.frames p1 q1 q si f hL
  obtain ⟨d0, hd0⟩ := mainInit_creates_fence env hn
  refine ⟨hf, (mainInit env).calls ++ a, b, (initGlobals env).device, ?_, hb, d0, ?_⟩
  · rw [hp1, hab, hf]
    simp [initGlobals]
  · simp [hd0]

/-- C1: fence discipline over the main loop.  In every run of `main`, every
queue submission signals the in-flight fence created by `initSyncObjects`, and
it is preceded by a wait on that fence followed by its reset, with no other
submission between that wait and the submission: so the submission of frame
k+1 comes after a wait that itself comes after the submission of frame k, which
signals the same fence.  The fence is created in the signaled state before
that wait, and no submission comes before the first wait of the run. -/
theorem fence_discipline (env : Env) :
    (∀ (pre post : List Call) (q : Handle) (si : SubmitInfo) (f : Handle),
      (main env).calls = pre ++ Call.vkQueueSubmit q si f :: post →
      f = env.vkCreateFence.handle ∧
      ∃ a b d,
        pre = a ++ Call.vkWaitForFences d [f] true UINT64_MAX :: Call.vkResetFences d [f] :: b ∧
        (∀ c ∈ b, c.isSubmit = false) ∧
        (∃ d0, Call.vkCreateFence d0 VK_FENCE_CREATE_SIGNALED_BIT ∈ a)) ∧
    (∀ d fl, Call.vkCreateFence d fl ∈ (main env).calls → fl = VK_FENCE_CREATE_SIGNALED_BIT) ∧
    (∀ (pre post : List Call) (w : Call),
      (main env).calls = pre ++ w :: post → w.isGpuWait = true →
      (∀ c ∈ pre, c.isGpuWait = false) → ∀ c ∈ pre, c.isSubmit = false) := by
  have part1 := main_submit_after_wait env
  refine ⟨part1, ?_, ?_⟩
  · intro d fl hmem
    have hnot : ∀ l : List Call, (∀ c ∈ l, ∀ d1 fl1, c ≠ Call.vkCreateFence d1 fl1) →
        Call.vkCreateFence d fl ∉ l := fun l hl hm => hl _ hm d fl rfl
    have hloop : ∀ frames, ∀ c ∈ (mainLoop env (initGlobals env) frames).calls,
        ∀ d1 fl1, c ≠ Call.vkCreateFence d1 fl1 := by
      intro frames
      induction frames with
      | nil => simp [mainLoop]
      | cons fr rest ih =>
        obtain ⟨tail, hcalls, htail⟩ := mainLoop_cons_calls env (initGlobals env) fr rest
        rw [hcalls]
        rcases htail with rfl | rfl
        · simp
        · intro c hc
          simp only [List.cons_append, List.nil_append, List.mem_cons] at hc
          rcases hc with rfl | rfl | rfl | rfl | rfl | rfl | rfl | rfl | hc
          all_goals first | exact ih c hc | simp
    have htear : ∀ c ∈ teardown env (initGlobals env), ∀ d1 fl1, c ≠ Call.vkCreateFence d1 fl1 := by
      simp only [teardown, List.forall_mem_append]
      refine ⟨⟨⟨⟨⟨⟨?_, ?_⟩, ?_⟩, ?_⟩, ?_⟩, ?_⟩, ?_⟩ <;> (try split_ifs) <;> simp
    have hinit : Call.vkCreateFence d fl ∈ (mainInit env).calls →
        fl = VK_FENCE_CREATE_SIGNALED_BIT := by
      intro hm
      rcases mainInit_calls env _ hm with h1 | ⟨t, -, h1⟩
      · simpa [Call.inInit] using h1
      · cases h1
    rcases main_cases env with ⟨e, -, hm⟩ | ⟨-, -, e, -, -, hc⟩ | ⟨-, -, -, -, hc⟩
    · rw [hm] at hmem
      exact hinit hmem
    · rw [hc, List.mem_append] at hmem
      rcases hmem with hm | hm
      · exact hinit hm
      · exact absurd hm (hnot _ (hloop _))
    · rw [hc, List.mem_append, List.mem_append] at hmem
      rcases hmem with hm | hm | hm
      · exact hinit hm
      · exact absurd hm (hnot _ (hloop _))
      · exact absurd hm (hnot _ htear)
  · intro pre post w h _ hpre c hc
    cases hsub : c.isSubmit with
    | false => rfl
    | true =>
      exfalso
      obtain ⟨p, r, rfl⟩ := List.append_of_mem hc
      cases c with
      | vkQueueSubmit q si f =>
        rw [List.append_assoc, List.cons_append] at h
        obtain ⟨-, a, b, d, hab, -, -⟩ := part1 p _ q si f h
        have hw := hpre (Call.vkWaitForFences d [f] true UINT64_MAX) (by rw [hab]; simp)
        simp [Call.isGpuWait] at hw
      | _ => simp [Call.isSubmit] at hsub

/-- Witness of C1: in the run `envTwoFrames` the second submission is the call
at position 67; the calls before it end with the first submission, its present,
the event poll, the should-close test, the call of `drawFrame`, the wait on
fence 9, its reset, and the acquire. -/
theorem fence_discipline_witness :
    (main envTwoFrames).calls = (main envTwoFrames).calls.take 67 ++
      Call.vkQueueSubmit 6 (submitInfo (initGlobals envTwoFrames)) 9 ::
        (main envTwoFrames).calls.drop 68 ∧
    ∃ a b d,
      (main envTwoFrames).calls.take 67 =
        a ++ Call.vkWaitForFences d [9] true UINT64_MAX :: Call.vkResetFences d [9] :: b ∧
      (∀ c ∈ b, c.isSubmit = false) ∧
      (∃ d0, Call.vkCreateFence d0 VK_FENCE_CREATE_SIGNALED_BIT ∈ a) :=
  have h : (main envTwoFrames).calls = (main envTwoFrames).calls.take 67 ++
      Call.vkQueueSubmit 6 (submitInfo (initGlobals envTwoFrames)) 9 ::
        (main envTwoFrames).calls.drop 68 := rfl
  ⟨h, ((fence_discipline envTwoFrames).1 _ _ _ _ _ h).2⟩


/-! ## Teardown -/

/-- C5, what the code does instead: in the clean run `envOk` the teardown
destroys the device (5) and the instance (2) before the semaphores (7, 8) and
the fence (9), destroys the device a second time, and destroys neither the
vertex buffer nor its memory nor a command pool; this is not the order the
specification gives.  In the order of the specification the semaphores and the
fence are destroyed before the device and the device before the instance; in
the teardown of the code none of the three holds, and the device is destroyed
twice, the second time after the instance. -/
theorem teardown_order_at_envOk :
    (main envOk).exit = some (Exit.returned 0) ∧
    (main envOk).calls = (mainInit envOk).calls ++
      (Call.glfwWindowShouldClose 1 :: teardown envOk (initGlobals envOk)) ∧
    destroys (teardown envOk (initGlobals envOk)) =
      [(ObjKind.pipeline, 14), (ObjKind.pipelineLayout, 11), (ObjKind.renderPass, 10),
       (ObjKind.device, 5), (ObjKind.debugMessenger, 3), (ObjKind.vkInstance, 2),
       (ObjKind.semaphore, 7), (ObjKind.semaphore, 8), (ObjKind.fence, 9),
       (ObjKind.surface, 17), (ObjKind.device, 5), (ObjKind.window, 1)] ∧
    (destroys (teardown envOk (initGlobals envOk))).map Prod.fst ≠ specTeardownOrder ∧
    destroyedBefore ObjKind.semaphore ObjKind.device specTeardownOrder = true ∧
    destroyedBefore ObjKind.fence ObjKind.device specTeardownOrder = true ∧
    destroyedBefore ObjKind.device ObjKind.vkInstance specTeardownOrder = true ∧
    destroyedBefore ObjKind.semaphore ObjKind.device
      ((destroys (teardown envOk (initGlobals envOk))).map Prod.fst) = false ∧
    destroyedBefore ObjKind.fence ObjKind.device
      ((destroys (teardown envOk (initGlobals envOk))).map Prod.fst) = false ∧
    destroyedBefore ObjKind.device ObjKind.vkInstance
      ((destroys (teardown envOk (initGlobals envOk))).map Prod.fst) = false ∧
    destroyCount ObjKind.device 5 (teardown envOk (initGlobals envOk)) = 2 ∧
    specTeardownOrder.count ObjKind.device = 1 :=
  ⟨by decide, rfl, by decide, by decide, by decide, by decide, by decide, by decide, by decide,
    by decide, by decide, by decide⟩

/-- C6, what the code does instead: whatever the globals hold, the teardown
ends with seven unguarded calls; on globals that are all null it still issues
destroy calls for the two semaphores, the fence, the surface and the device;
and in the clean run `envNullSurface` the function `main` destroys a null surface. -/
theorem teardown_destroys_null_handles :
    (∀ (env : Env) (g : Globals), ∃ guarded, teardown env g = guarded ++
      [Call.vkDestroySemaphore g.device g.imageAvailableSemaphore,
       Call.vkDestroySemaphore g.device g.renderFinishedSemaphore,
       Call.vkDestroyFence g.device g.fence,
       Call.vkDestroyWindowSurface g.vkInstance env.surface,
       Call.vkDestroyDevice g.device,
       Call.glfwDestroyWindow g.window,
       Call.glfwTerminate]) ∧
    teardown envOk Globals.init =
      [Call.vkDestroySemaphore VK_NULL_HANDLE VK_NULL_HANDLE,
       Call.vkDestroySemaphore VK_NULL_HANDLE VK_NULL_HANDLE,
       Call.vkDestroyFence VK_NULL_HANDLE VK_NULL_HANDLE,
       Call.vkDestroyWindowSurface VK_NULL_HANDLE 17,
       Call.vkDestroyDevice VK_NULL_HANDLE,
       Call.glfwDestroyWindow VK_NULL_HANDLE,
       Call.glfwTerminate] ∧
    (main envNullSurface).exit = some (Exit.returned 0) ∧
    Call.vkDestroyWindowSurface 2 VK_NULL_HANDLE ∈ (main envNullSurface).calls := by
  exact ⟨fun env g => ⟨_, rfl⟩, rfl, by decide,
    List.getElem?_mem (rfl : (main envNullSurface).calls[65]? = _)⟩

/-! ## The end of the loop and the teardown -/

/-- The two ways an iteration of the loop can run: the submission is rejected
and the exception ends the process, or the frame is presented and the loop goes on. -/
theorem mainLoop_cons_cases (env : Env) (g : Globals) (fr : FrameEnv) (rest : List FrameEnv) :
    ((mainLoop env g (fr :: rest)).calls =
        [Call.glfwWindowShouldClose g.window, Call.fn Fn.drawFrame,
         Call.vkWaitForFences g.device [g.fence] true UINT64_MAX,
         Call.vkResetFences g.device [g.fence],
         Call.vkAcquireNextImageKHR g.device env.swapChain UINT64_MAX
           g.imageAvailableSemaphore VK_NULL_HANDLE] ++
        [Call.vkQueueSubmit g.graphicsQueue (submitInfo g) g.fence] ∧
      (mainLoop env g (fr :: rest)).exit =
        some (Exit.uncaught "failed to submit draw command buffer!")) ∨
    ((mainLoop env g (fr :: rest)).calls =
        [Call.glfwWindowShouldClose g.window, Call.fn Fn.drawFrame,
         Call.vkWaitForFences g.device [g.fence] true UINT64_MAX,
         Call.vkResetFences g.device [g.fence],
         Call.vkAcquireNextImageKHR g.device env.swapChain UINT64_MAX
           g.imageAvailableSemaphore VK_NULL_HANDLE] ++
        Call.vkQueueSubmit g.graphicsQueue (submitInfo g) g.fence ::
          ([Call.vkQueuePresentKHR g.graphicsQueue (presentInfo env g fr.imageIndex),
            Call.glfwPollEvents] ++ (mainLoop env g rest).calls) ∧
      (mainLoop env g (fr :: rest)).exit = (mainLoop env g rest).exit) := by
  by_cases hs : fr.vkQueueSubmit = VK_SUCCESS
  · right
    simp [mainLoop, drawFrame, hs]
  · left
    simp [mainLoop, drawFrame, hs]

/-- The loop ends the process only in failure. -/
theorem mainLoop_exit (env : Env) (g : Globals) (frames : List FrameEnv) (e : Exit)
    (h : (mainLoop env g frames).exit = some e) : e.isFailure = true := by
  induction frames with
  | nil => simp [mainLoop] at h
  | cons fr rest ih =>
    rcases mainLoop_cons_cases env g fr rest with ⟨-, he⟩ | ⟨-, he⟩
    · rw [he] at h
      cases h
      rfl
    · rw [he] at h
      exact ih h

/-- The loop issues no destroy call. -/
theorem mainLoop_no_destroy (env : Env) (g : Globals) (frames : List FrameEnv) :
    ∀ c ∈ (mainLoop env g frames).calls, c.destroyed = none := by
  induction frames with
  | nil => simp [mainLoop, Call.destroyed]
  | cons fr rest ih =>
    rcases mainLoop_cons_cases env g fr rest with ⟨hc, -⟩ | ⟨hc, -⟩
    · rw [hc]
      simp [Call.destroyed]
    · rw [hc]
      intro c hmem
      simp only [List.cons_append, List.nil_append, List.mem_cons] at hmem
      rcases hmem with rfl | rfl | rfl | rfl | rfl | rfl | rfl | rfl | hmem
      all_goals first | exact ih c hmem | rfl

/-- In a loop that is left normally, the last submission is followed by its
present, the event poll and the should-close test that ends the loop. -/
theorem mainLoop_after_last_submit (env : Env) (g : Globals) (frames : List FrameEnv) :
    ∀ (pre post : List Call) (q : Handle) (si : SubmitInfo) (f : Handle),
      (mainLoop env g frames).calls = pre ++ Call.vkQueueSubmit q si f :: post →
      (∀ c ∈ post, c.isSubmit = false) → (mainLoop env g frames).exit = none →
      ∃ present, post = [Call.vkQueuePresentKHR q present, Call.glfwPollEvents,
        Call.glfwWindowShouldClose g.window] := by
  induction frames with
  | nil =>
    intro pre post q si f h
    simp only [mainLoop] at h
    have hmem : Call.vkQueueSubmit q si f ∈ [Call.glfwWindowShouldClose g.window] := by
      rw [h]; simp
    simp at hmem
  | cons fr rest ih =>
    intro pre post q si f h hlast hexit
    have hsub : (Call.vkQueueSubmit q si f).isSubmit = true := rfl
    rcases mainLoop_cons_cases env g fr rest with ⟨-, he⟩ | ⟨hc, he⟩
    · rw [he] at hexit
      cases hexit
    · rw [hc] at h
      rw [he] at hexit
      obtain ⟨p1, -, h1⟩ := split_append_of_not (P := fun c => c.isSubmit = true) hsub _
        (by simp [Call.isSubmit]) h
      cases p1 with
      | nil =>
        simp only [List.nil_append, List.cons.injEq, Call.vkQueueSubmit.injEq] at h1
        obtain ⟨⟨hq, -, -⟩, hpost⟩ := h1
        cases rest with
        | nil =>
          refine ⟨presentInfo env g fr.imageIndex, ?_⟩
          rw [← hpost, ← hq]
          simp [mainLoop]
        | cons fr2 rest2 =>
          exfalso
          obtain ⟨tail, hc2, -⟩ := mainLoop_cons_calls env g fr2 rest2
          have := hlast (Call.vkQueueSubmit g.graphicsQueue (submitInfo g) g.fence)
            (by rw [← hpost, hc2]; simp)
          simp [Call.isSubmit] at this
      | cons y p2 =>
        simp only [List.cons_append, List.cons.injEq] at h1
        obtain ⟨-, h2⟩ := h1
        obtain ⟨p3, -, h3⟩ := split_append_of_not (P := fun c => c.isSubmit = true) hsub
          [Call.vkQueuePresentKHR g.graphicsQueue (presentInfo env g fr.imageIndex),
           Call.glfwPollEvents] (by simp [Call.isSubmit]) h2
        exact ih p3 post q si f h3 hlast hexit

/-- The teardown always issues a destroy call. -/
theorem teardown_destroys_something (env : Env) (g : Globals) :
    ∃ c ∈ teardown env g, c.destroyed ≠ none :=
  ⟨Call.vkDestroyFence g.device g.fence, by simp [teardown], by simp [Call.destroyed]⟩

/-- In every run of `main` that leaves the loop after at least one frame, the
last queue submission is followed by its present, the event poll, the
should-close test and then at once by the teardown, which issues destroy
calls, with no wait for the GPU in between.  The waits of the run are the fence
waits at the start of the frames: every earlier submission is followed by a
wait on the fence it signals, before the last submission. -/
theorem main_after_last_submission (env : Env) (pre post : List Call) (q : Handle)
    (si : SubmitInfo) (f : Handle)
    (h : (main env).calls = pre ++ Call.vkQueueSubmit q si f :: post)
    (hlast : ∀ c ∈ post, c.isSubmit = false)
    (hexit : (main env).exit = some (Exit.returned 0)) :
    (∃ present, post =
      [Call.vkQueuePresentKHR q present, Call.glfwPollEvents,
       Call.glfwWindowShouldClose env.glfwCreateWindow] ++ teardown env (initGlobals env)) ∧
    (∃ c ∈ teardown env (initGlobals env), c.destroyed ≠ none) ∧
    (∀ c ∈ post, c.isGpuWait = false) ∧
    (∀ (pre0 post0 : List Call) (q0 : Handle) (si0 : SubmitInfo) (f0 : Handle),
      pre = pre0 ++ Call.vkQueueSubmit q0 si0 f0 :: post0 →
      ∃ d, Call.vkWaitForFences d [f0] true UINT64_MAX ∈ post0) := by
  have hsub : (Call.vkQueueSubmit q si f).isSubmit = true := rfl
  obtain ⟨-, p1, q1, -, hL, hcase⟩ := main_split_loop env (fun c => c.isSubmit = true)
    (fun c hc => by cases c <;> simp_all [Call.inInit, Call.isSubmit])
    (fun f => by simp [Call.isSubmit])
    (fun c hc => by simp [(teardown_no_submit_no_wait env _ c hc).1]) hsub h
  rcases hcase with ⟨e, hle, hme, -⟩ | ⟨hln, hpost⟩
  · rw [hme] at hexit
    cases hexit
    have := mainLoop_exit env _ _ _ hle
    simp [Exit.isFailure] at this
  have hlast1 : ∀ c ∈ q1, c.isSubmit = false := fun c hc =>
    hlast c (by rw [hpost]; simp [hc])
  obtain ⟨present, hq1⟩ := mainLoop_after_last_submit env _ env.frames p1 q1 q si f hL hlast1 hln
  have hpost2 : post = [Call.vkQueuePresentKHR q present, Call.glfwPollEvents,
      Call.glfwWindowShouldClose env.glfwCreateWindow] ++ teardown env (initGlobals env) := by
    rw [hpost, hq1]
    rfl
  refine ⟨⟨present, hpost2⟩, teardown_destroys_something env _, ?_, ?_⟩
  · intro c hc
    rw [hpost2, List.mem_append] at hc
    rcases hc with hc | hc
    · simp only [List.mem_cons, List.mem_singleton, List.not_mem_nil, or_false] at hc
      rcases hc with rfl | rfl | rfl <;> rfl
    · exact (teardown_no_submit_no_wait env _ c hc).2
  · intro pre0 post0 q0 si0 f0 hpre
    obtain ⟨-, a, b, d, hab, hb, -⟩ := main_submit_after_wait env pre post q si f h
    have hf0 : f0 = env.vkCreateFence.handle :=
      (main_submit_after_wait env pre0 (post0 ++ Call.vkQueueSubmit q si f :: post) q0 si0 f0
        (by rw [h, hpre]; simp)).1
    have hf : f = env.vkCreateFence.handle := (main_submit_after_wait env pre post q si f h).1
    rw [hab] at hpre
    have hback : ∀ c ∈ Call.vkWaitForFences d [f] true UINT64_MAX ::
        Call.vkResetFences d [f] :: b, ¬ c.isSubmit = true := by
      intro c hc
      simp only [List.mem_cons] at hc
      rcases hc with rfl | rfl | hc
      · simp [Call.isSubmit]
      · simp [Call.isSubmit]
      · simp [hb c hc]
    obtain ⟨r, -, hr⟩ := split_append_right_of_not (P := fun c => c.isSubmit = true)
      (show (Call.vkQueueSubmit q0 si0 f0).isSubmit = true from rfl) hback hpre
    refine ⟨d, ?_⟩
    rw [hr, hf0, ← hf]
    simp

/-- C8, what the code does instead: `main` goes from the loop straight to the
teardown.  In the run `envOneFrame`, which executes one frame, leaves the loop
and returns 0, nothing but the two shader modules is destroyed before the one
queue submission, and the trace from that submission on is the submission
(signalling fence 9 on the queue of device 5), the present, the event poll, the
should-close test and then the destroy calls of the teardown: no wait of any
kind follows the submission, and the teardown destroys the pipeline 14 that the
submitted commands use, the fence 9 that the submission signals and the device
5 itself, objects the submission may still be using.  The same holds of every
run of `main` that executes a frame and returns: after the last submission no
call waits for the GPU before the destroy calls, although every earlier
submission is followed by the fence wait of the next frame. -/
theorem teardown_without_gpu_wait :
    (main envOneFrame).exit = some (Exit.returned 0) ∧
    (main envOneFrame).calls = (main envOneFrame).calls.take 59 ++
      Call.vkQueueSubmit 6 (submitInfo (initGlobals envOneFrame)) 9 ::
        (main envOneFrame).calls.drop 60 ∧
    destroys ((main envOneFrame).calls.take 59) =
      [(ObjKind.shaderModule, 13), (ObjKind.shaderModule, 12)] ∧
    (main envOneFrame).calls.drop 59 =
      [Call.vkQueueSubmit 6
         { pWaitSemaphores := [7], pWaitDstStageMask := [1024], pCommandBuffers := [0],
           pSignalSemaphores := [8] } 9,
       Call.vkQueuePresentKHR 6
         { pWaitSemaphores := [8], pSwapchains := [18], pImageIndices := [2] },
       Call.glfwPollEvents,
       Call.glfwWindowShouldClose 1,
       Call.vkDestroyPipeline 5 14,
       Call.vkDestroyPipelineLayout 5 11,
       Call.vkDestroyRenderPass 5 10,
       Call.vkDestroyDevice 5,
       Call.vkGetInstanceProcAddr 2 "vkDestroyDebugUtilsMessengerEXT",
       Call.vkDestroyDebugUtilsMessengerEXT 2 3,
       Call.vkDestroyInstance 2,
       Call.vkDestroySemaphore 5 7,
       Call.vkDestroySemaphore 5 8,
       Call.vkDestroyFence 5 9,
       Call.vkDestroyWindowSurface 2 17,
       Call.vkDestroyDevice 5,
       Call.glfwDestroyWindow 1,
       Call.glfwTerminate] ∧
    (∀ c ∈ (main envOneFrame).calls.drop 60, c.isGpuWait = false) ∧
    (∀ c ∈ (main envOneFrame).calls.drop 60, c.isSubmit = false) ∧
    destroys ((main envOneFrame).calls.drop 60) =
      [(ObjKind.pipeline, 14), (ObjKind.pipelineLayout, 11), (ObjKind.renderPass, 10),
       (ObjKind.device, 5), (ObjKind.debugMessenger, 3), (ObjKind.vkInstance, 2),
       (ObjKind.semaphore, 7), (ObjKind.semaphore, 8), (ObjKind.fence, 9),
       (ObjKind.surface, 17), (ObjKind.device, 5), (ObjKind.window, 1)] ∧
    (∀ (env : Env) (pre post : List Call) (q : Handle) (si : SubmitInfo) (f : Handle),
      (main env).calls = pre ++ Call.vkQueueSubmit q si f :: post →
      (∀ c ∈ post, c.isSubmit = false) →
      (main env).exit = some (Exit.returned 0) →
      (∃ present, post =
        [Call.vkQueuePresentKHR q present, Call.glfwPollEvents,
         Call.glfwWindowShouldClose env.glfwCreateWindow] ++
          teardown env (initGlobals env)) ∧
      (∃ c ∈ teardown env (initGlobals env), c.destroyed ≠ none) ∧
      (∀ c ∈ post, c.isGpuWait = false) ∧
      (∀ (pre0 post0 : List Call) (q0 : Handle) (si0 : SubmitInfo) (f0 : Handle),
        pre = pre0 ++ Call.vkQueueSubmit q0 si0 f0 :: post0 →
        ∃ d, Call.vkWaitForFences d [f0] true UINT64_MAX ∈ post0)) :=
  ⟨by decide, rfl, by decide, rfl, by decide, by decide, by decide,
    main_after_last_submission⟩

/-! ## Destroy calls of a run -/

theorem destroys_append (a b : List Call) : destroys (a ++ b) = destroys a ++ destroys b := by
  simp [destroys, List.filterMap_append]

theorem destroys_eq_nil {l : List Call} (h : ∀ c ∈ l, c.destroyed = none) : destroys l = [] := by
  induction l with
  | nil => rfl
  | cons x l ih =>
    have hx := h x (List.mem_cons_self _ _)
    have hl := ih (fun c hc => h c (List.mem_cons_of_mem _ hc))
    simp only [destroys] at hl ⊢
    rw [List.filterMap_cons, hx]
    exact hl

theorem destroyCount_append (k : ObjKind) (h : Handle) (a b : List Call) :
    destroyCount k h (a ++ b) = destroyCount k h a + destroyCount k h b := by
  simp [destroyCount, destroys_append]

/-- The initialisation functions other than `createGraphicsPipeline` issue no
destroy call. -/
theorem initSteps_body_no_destroy (env : Env) :
    ∀ s ∈ initSteps env, s.1 ≠ Fn.createGraphicsPipeline →
      ∀ g, ∀ c ∈ (s.2 g).calls, c.destroyed = none := by
  intro s hs hne g
  simp only [initSteps, List.mem_cons, List.mem_singleton, List.not_mem_nil, or_false] at hs
  rcases hs with rfl | rfl | rfl | rfl | rfl | rfl | rfl | rfl | rfl | rfl
  · simp only [initWindow]
    split_ifs <;> simp [Call.destroyed]
  · simp [createInstance, checkValidationLayerSupportCalls, Call.destroyed]
  · simp only [setupDebugMessenger]
    split_ifs <;> simp [checkValidationLayerSupportCalls, Call.destroyed]
  · simp only [pickPhysicalDevice]
    split_ifs <;> simp [Call.destroyed]
  · simp only [createLogicalDevice]
    split_ifs <;> simp [Call.destroyed]
  · simp only [initSyncObjects]
    split_ifs <;> simp [Call.destroyed]
  · simp [createRenderPass, Call.destroyed]
  · exact absurd rfl hne
  · simp only [createVertexBuffer]
    split_ifs <;> simp [Call.destroyed]
  · simp only [recordCommandBuffer]
    split_ifs <;> simp [Call.destroyed]

/-- A run of steps whose bodies issue no destroy call issues none. -/
theorem runSteps_no_destroy (steps : List (Fn × (Globals → Out)))
    (h : ∀ s ∈ steps, ∀ g, ∀ c ∈ (s.2 g).calls, c.destroyed = none) (g : Globals) :
    destroys (runSteps steps g).calls = [] :=
  destroys_eq_nil (runSteps_calls (fun c => c.destroyed = none) steps (fun _ _ => rfl) h g)

/-- The destroy calls of a complete initialisation: the two shader modules,
fragment first, when the pipeline layout was created, none otherwise. -/
theorem mainInit_destroys (env : Env) (h : (mainInit env).exit = none) :
    destroys (mainInit env).calls =
      if env.vkCreatePipelineLayout.result = VK_SUCCESS
      then [(ObjKind.shaderModule, env.fragShaderModule.handle),
            (ObjKind.shaderModule, env.vertShaderModule.handle)]
      else [] := by
  have hsplit : initSteps env =
      [(Fn.initWindow, initWindow env), (Fn.createInstance, createInstance env),
       (Fn.setupDebugMessenger, setupDebugMessenger env),
       (Fn.pickPhysicalDevice, pickPhysicalDevice env),
       (Fn.createLogicalDevice, createLogicalDevice env),
       (Fn.initSyncObjects, initSyncObjects env),
       (Fn.createRenderPass, createRenderPass env)] ++
      ((Fn.createGraphicsPipeline, createGraphicsPipeline env) ::
       [(Fn.createVertexBuffer, createVertexBuffer env),
        (Fn.recordCommandBuffer, recordCommandBuffer env)]) := rfl
  unfold mainInit at h ⊢
  rw [hsplit, runSteps_append] at h ⊢
  obtain ⟨hA, hB⟩ := Out.andThen_exit_eq_none.1 h
  rw [Out.andThen_calls_of_none _ hA]
  obtain ⟨hcgp, -, -, hcalls⟩ := runSteps_cons_of_exit_none hB
  rw [hcalls, destroys_append]
  have h1 : destroys (runSteps [(Fn.initWindow, initWindow env),
      (Fn.createInstance, createInstance env),
      (Fn.setupDebugMessenger, setupDebugMessenger env),
      (Fn.pickPhysicalDevice, pickPhysicalDevice env),
      (Fn.createLogicalDevice, createLogicalDevice env),
      (Fn.initSyncObjects, initSyncObjects env),
      (Fn.createRenderPass, createRenderPass env)] Globals.init).calls = [] := by
    apply runSteps_no_destroy
    intro s hs
    apply initSteps_body_no_destroy env s
    · simp only [List.mem_cons, List.mem_singleton, List.not_mem_nil, or_false] at hs
      rcases hs with rfl | rfl | rfl | rfl | rfl | rfl | rfl <;> simp [initSteps]
    · simp only [List.mem_cons, List.mem_singleton, List.not_mem_nil, or_false] at hs
      rcases hs with rfl | rfl | rfl | rfl | rfl | rfl | rfl <;> simp
  have h2 : ∀ g, destroys (runSteps [(Fn.createVertexBuffer, createVertexBuffer env),
        (Fn.recordCommandBuffer, recordCommandBuffer env)] g).calls = [] := by
    intro g
    apply runSteps_no_destroy
    intro s hs
    apply initSteps_body_no_destroy env s
    · simp only [List.mem_cons, List.mem_singleton, List.not_mem_nil, or_false] at hs
      rcases hs with rfl | rfl <;> simp [initSteps]
    · simp only [List.mem_cons, List.mem_singleton, List.not_mem_nil, or_false] at hs
      rcases hs with rfl | rfl <;> simp
  rw [h1, List.nil_append]
  show destroys (Call.fn Fn.createGraphicsPipeline :: (_ ++ _)) = _
  have hfn : ∀ l, destroys (Call.fn Fn.createGraphicsPipeline :: l) = destroys l := fun l => rfl
  rw [hfn, destroys_append, h2, List.append_nil]
  dsimp only at hcgp ⊢
  rcases createGraphicsPipeline_cases env (runSteps [(Fn.initWindow, initWindow env),
      (Fn.createInstance, createInstance env),
      (Fn.setupDebugMessenger, setupDebugMessenger env),
      (Fn.pickPhysicalDevice, pickPhysicalDevice env),
      (Fn.createLogicalDevice, createLogicalDevice env),
      (Fn.initSyncObjects, initSyncObjects env),
      (Fn.createRenderPass, createRenderPass env)] Globals.init).g with
    ⟨cs, e1, -, -, hc⟩ | ⟨hr, hc⟩ | ⟨-, -, -, -, -, -, hc⟩ | ⟨hr, -, -, -, -, -, hc⟩
  · rw [hc] at hcgp
    simp at hcgp
  · rw [hc]
    simp [hr, destroys, Call.destroyed]
  · rw [hc] at hcgp
    simp at hcgp
  · rw [hc]
    simp [hr, destroys, Call.destroyed]

/-- During the initialisation only shader modules are destroyed. -/
theorem mainInit_destroys_kind (env : Env) (k : ObjKind) (h : Handle)
    (hk : k ≠ ObjKind.shaderModule) : destroyCount k h (mainInit env).calls = 0 := by
  unfold destroyCount destroys
  rw [List.count_eq_zero, List.mem_filterMap]
  rintro ⟨c, hc, hd⟩
  rcases mainInit_calls env c hc with h1 | ⟨t, -, rfl⟩
  · cases c <;> simp_all [Call.inInit, Call.destroyed]
  · simp [Call.destroyed] at hd

/-- The destroy calls of the teardown, in order. -/
theorem destroys_teardown (env : Env) (g : Globals) :
    destroys (teardown env g) =
      (if g.graphicsPipeline ≠ VK_NULL_HANDLE
        then [(ObjKind.pipeline, g.graphicsPipeline)] else []) ++
      (if g.pipelineLayout ≠ VK_NULL_HANDLE
        then [(ObjKind.pipelineLayout, g.pipelineLayout)] else []) ++
      (if g.renderPass ≠ VK_NULL_HANDLE then [(ObjKind.renderPass, g.renderPass)] else []) ++
      (if g.device ≠ VK_NULL_HANDLE then [(ObjKind.device, g.device)] else []) ++
      (if g.debugMessenger ≠ VK_NULL_HANDLE ∧ env.destroyDebugUtilsMessengerAddr = true
        then [(ObjKind.debugMessenger, g.debugMessenger)] else []) ++
      (if g.vkInstance ≠ VK_NULL_HANDLE then [(ObjKind.vkInstance, g.vkInstance)] else []) ++
      [(ObjKind.semaphore, g.imageAvailableSemaphore),
       (ObjKind.semaphore, g.renderFinishedSemaphore),
       (ObjKind.fence, g.fence), (ObjKind.surface, env.surface),
       (ObjKind.device, g.device), (ObjKind.window, g.window)] := by
  simp only [teardown, destroys_append]
  refine congrArg₂ _ (congrArg₂ _ (congrArg₂ _ (congrArg₂ _ (congrArg₂ _ (congrArg₂ _
    ?_ ?_) ?_) ?_) ?_) ?_) ?_ <;> (try split_ifs) <;> simp_all [destroys, Call.destroyed]

/-- The destroy calls of a clean run: those of the initialisation, then those
of the teardown. -/
theorem destroyCount_main_clean (env : Env) (hexit : (main env).exit = some (Exit.returned 0))
    (k : ObjKind) (h : Handle) :
    destroyCount k h (main env).calls =
      List.count (k, h)
        (if env.vkCreatePipelineLayout.result = VK_SUCCESS
         then [(ObjKind.shaderModule, env.fragShaderModule.handle),
               (ObjKind.shaderModule, env.vertShaderModule.handle)]
         else []) +
      List.count (k, h) (destroys (teardown env (initGlobals env))) := by
  rcases main_cases env with ⟨e, he, hm⟩ | ⟨-, -, e, hle, hme, -⟩ | ⟨hn, -, -, -, hc⟩
  · rw [hm, he] at hexit
    cases hexit
    have := mainInit_exit env _ he
    simp [Exit.isFailure] at this
  · rw [hme] at hexit
    cases hexit
    have := mainLoop_exit env _ _ _ hle
    simp [Exit.isFailure] at this
  · rw [hc, destroyCount_append, destroyCount_append]
    have hL : destroyCount k h (mainLoop env (initGlobals env) env.frames).calls = 0 := by
      unfold destroyCount
      rw [destroys_eq_nil (mainLoop_no_destroy env _ _)]
      rfl
    rw [hL, Nat.zero_add]
    unfold destroyCount
    rw [mainInit_destroys env hn]

/-! ## Resource lifecycle -/

theorem count_ite (a : ObjKind × Handle) (c : Prop) [Decidable c]
    (l1 l2 : List (ObjKind × Handle)) :
    List.count a (if c then l1 else l2) = if c then List.count a l1 else List.count a l2 := by
  split_ifs <;> rfl

/-- Counterexample to C7 as stated: in the clean run `envOk` the device (5) is
the argument of two destroy calls and the vertex buffer (15) and its memory
(16) of none; in the run `envRenderPassFails`, which ends by `exit(-1)` in
`createRenderPass`, the instance (2), the device (5), the semaphores (7, 8) and
the fence (9) were created and no destroy call is issued at all. -/
theorem lifecycle_counterexample :
    (main envOk).exit = some (Exit.returned 0) ∧
    destroyCount ObjKind.device 5 (main envOk).calls = 2 ∧
    Call.vkCreateBuffer 5 36 ∈ (main envOk).calls ∧
    destroyCount ObjKind.buffer 15 (main envOk).calls = 0 ∧
    destroyCount ObjKind.deviceMemory 16 (main envOk).calls = 0 ∧
    (main envRenderPassFails).exit = some (Exit.exit (-1)) ∧
    Call.vkCreateFence 5 VK_FENCE_CREATE_SIGNALED_BIT ∈ (main envRenderPassFails).calls ∧
    destroys (main envRenderPassFails).calls = [] :=
  ⟨by decide, by decide, List.getElem?_mem (rfl : (main envOk).calls[42]? = _), by decide,
    by decide, by decide,
    List.getElem?_mem (rfl : (main envRenderPassFails).calls[29]? = _), by decide⟩

/-- C7, amended: when the driver hands out valid handles, along the clean
shutdown path of `main` each successfully created instance, semaphore, fence,
render pass, pipeline layout, shader module and pipeline is the argument of
exactly one destroy call, and so is the debug messenger when the destroy entry
point is found; along every other exit path no teardown is run, and the only
handles destroyed are shader modules. -/
theorem created_handles_destroyed_once (env : Env) (hv : env.handlesValid) :
    ((main env).exit = some (Exit.returned 0) →
      (env.vkCreateInstance.result = VK_SUCCESS →
        destroyCount ObjKind.vkInstance env.vkCreateInstance.handle (main env).calls = 1) ∧
      destroyCount ObjKind.semaphore env.imageAvailableSemaphore.handle (main env).calls = 1 ∧
      destroyCount ObjKind.semaphore env.renderFinishedSemaphore.handle (main env).calls = 1 ∧
      destroyCount ObjKind.fence env.vkCreateFence.handle (main env).calls = 1 ∧
      (env.vkCreateRenderPass.result = VK_SUCCESS →
        destroyCount ObjKind.renderPass env.vkCreateRenderPass.handle (main env).calls = 1) ∧
      (env.vkCreatePipelineLayout.result = VK_SUCCESS →
        destroyCount ObjKind.pipelineLayout env.vkCreatePipelineLayout.handle
          (main env).calls = 1 ∧
        destroyCount ObjKind.shaderModule env.vertShaderModule.handle (main env).calls = 1 ∧
        destroyCount ObjKind.shaderModule env.fragShaderModule.handle (main env).calls = 1 ∧
        (env.vkCreateGraphicsPipelines.result = VK_SUCCESS →
          destroyCount ObjKind.pipeline env.vkCreateGraphicsPipelines.handle
            (main env).calls = 1)) ∧
      (checkValidationLayerSupport env = true → env.createDebugUtilsMessengerAddr = true →
        env.vkCreateDebugUtilsMessengerEXT.result = VK_SUCCESS →
        env.destroyDebugUtilsMessengerAddr = true →
        destroyCount ObjKind.debugMessenger env.vkCreateDebugUtilsMessengerEXT.handle
          (main env).calls = 1)) ∧
    ((main env).exit ≠ some (Exit.returned 0) →
      ∀ k h, k ≠ ObjKind.shaderModule → destroyCount k h (main env).calls = 0) := by
  obtain ⟨hvI, hvD, hvR, hvL, hvP, hvS, hvM⟩ := hv
  constructor
  · intro hexit
    refine ⟨?_, ?_, ?_, ?_, ?_, ?_, ?_⟩
    · intro h1
      have := hvI h1
      rw [destroyCount_main_clean env hexit, destroys_teardown]
      simp [count_ite, List.count_cons, initGlobals, this]
    · rw [destroyCount_main_clean env hexit, destroys_teardown]
      simp [count_ite, List.count_cons, initGlobals, hvS.symm]
    · rw [destroyCount_main_clean env hexit, destroys_teardown]
      simp [count_ite, List.count_cons, initGlobals, hvS]
    · rw [destroyCount_main_clean env hexit, destroys_teardown]
      simp [count_ite, List.count_cons, initGlobals]
    · intro h1
      have := hvR h1
      rw [destroyCount_main_clean env hexit, destroys_teardown]
      simp [count_ite, List.count_cons, initGlobals, this]
    · intro h1
      have hl := hvL h1
      refine ⟨?_, ?_, ?_, ?_⟩
      · rw [destroyCount_main_clean env hexit, destroys_teardown]
        simp [count_ite, List.count_cons, initGlobals, hl]
      · rw [destroyCount_main_clean env hexit, destroys_teardown]
        simp [count_ite, List.count_cons, initGlobals, h1, hvM.symm]
      · rw [destroyCount_main_clean env hexit, destroys_teardown]
        simp [count_ite, List.count_cons, initGlobals, h1, hvM]
      · intro h2
        have hp := hvP h2
        rw [destroyCount_main_clean env hexit, destroys_teardown]
        simp [count_ite, List.count_cons, initGlobals, h1, hp]
    · intro h1 h2 h3 h4
      have hd := hvD h3
      rw [destroyCount_main_clean env hexit, destroys_teardown]
      simp [count_ite, List.count_cons, initGlobals, h1, h2, h4, hd]
  · intro hexit k h hk
    rcases main_cases env with ⟨e, -, hm⟩ | ⟨-, -, e, -, -, hc⟩ | ⟨-, -, -, hr, -⟩
    · rw [hm]
      exact mainInit_destroys_kind env k h hk
    · rw [hc, destroyCount_append, mainInit_destroys_kind env k h hk]
      unfold destroyCount
      rw [destroys_eq_nil (mainLoop_no_destroy env _ _)]
      rfl
    · exact absurd hr hexit

/-- Witness of C7 as amended: the clean run `envOk`. -/
theorem created_handles_destroyed_once_witness :
    envOk.handlesValid ∧
    destroyCount ObjKind.semaphore 7 (main envOk).calls = 1 ∧
    destroyCount ObjKind.semaphore 8 (main envOk).calls = 1 ∧
    destroyCount ObjKind.fence 9 (main envOk).calls = 1 :=
  have hv : envOk.handlesValid := by decide
  have t := (created_handles_destroyed_once envOk hv).1 (by decide)
  ⟨hv, t.2.1, t.2.2.1, t.2.2.2.1⟩

/-! ## Adapter selection -/

/-- C11, what the code does instead: the loop of `pickPhysicalDevice` takes the
first enumerated adapter whatever it is (its test is the constant `true`, the
program queries no queue family), so on a non-empty list the choice depends
only on the list; but on the machine of `envTwoAdapters`, where adapter 4 comes
first and only adapter 5 exposes a graphics-capable queue family, it selects
adapter 4 where the specification selects adapter 5, and `main` creates the
logical device on adapter 4. -/
theorem pickPhysicalDevice_takes_first_adapter :
    (∀ (physicalDevice dev : Handle) (rest : List Handle),
      pickLoop physicalDevice (dev :: rest) = dev) ∧
    (∀ (env : Env) (g : Globals), env.deviceCount ≠ 0 →
      (pickPhysicalDevice env g).g.physicalDevice =
        pickLoop g.physicalDevice (enumeratedDevices env)) ∧
    (∀ (p1 p2 : Handle) (devices : List Handle), devices ≠ [] →
      pickLoop p1 devices = pickLoop p2 devices) ∧
    enumeratedDevices envTwoAdapters = [4, 5] ∧
    onlyFiveHasGraphics 4 = false ∧
    specSelectAdapter onlyFiveHasGraphics (enumeratedDevices envTwoAdapters) = some 5 ∧
    (pickPhysicalDevice envTwoAdapters Globals.init).exit = none ∧
    (pickPhysicalDevice envTwoAdapters Globals.init).g.physicalDevice = 4 ∧
    (main envTwoAdapters).calls[23]? = some (Call.vkCreateDevice 4 deviceCreateInfo) := by
  refine ⟨fun _ _ _ => rfl, ?_, ?_, by decide, by decide, by decide, by decide, by decide, rfl⟩
  · intro env g h
    simp [pickPhysicalDevice, h]
  · intro p1 p2 devices h
    cases devices with
    | nil => exact absurd rfl h
    | cons dev rest => rfl

/-! ## Failures during the initialisation -/

/-- The names of the initialisation functions, in the order of the calls. -/
theorem initSteps_names (env : Env) :
    (initSteps env).map Prod.fst =
      [Fn.initWindow, Fn.createInstance, Fn.setupDebugMessenger, Fn.pickPhysicalDevice,
       Fn.createLogicalDevice, Fn.initSyncObjects, Fn.createRenderPass,
       Fn.createGraphicsPipeline, Fn.createVertexBuffer, Fn.recordCommandBuffer] := rfl

/-- When an initialisation function ends the process, `main` ends there, in
failure, and calls no later initialisation function and no frame. -/
theorem step_exit_stops_main (env : Env) (pre post : List (Fn × (Globals → Out)))
    (s : Fn × (Globals → Out)) (e : Exit)
    (hsplit : initSteps env = pre ++ s :: post)
    (hpre : (runSteps pre Globals.init).exit = none)
    (hs : (s.2 (runSteps pre Globals.init).g).exit = some e) :
    (main env).exit = some e ∧ e.isFailure = true ∧
    (∀ t ∈ post, Call.fn t.1 ∉ (main env).calls) ∧
    Call.fn Fn.drawFrame ∉ (main env).calls := by
  have hinv : (invoke s.1 s.2 (runSteps pre Globals.init).g).exit = some e := hs
  have hinit : mainInit env =
      { calls := (runSteps pre Globals.init).calls ++
          (invoke s.1 s.2 (runSteps pre Globals.init).g).calls,
        exit := some e, g := (invoke s.1 s.2 (runSteps pre Globals.init).g).g } := by
    unfold mainInit
    rw [hsplit, runSteps_append]
    have hstep : runSteps (s :: post) (runSteps pre Globals.init).g =
        invoke s.1 s.2 (runSteps pre Globals.init).g := by
      simp only [runSteps]
      exact Out.andThen_of_exit_some _ hinv
    simp only [Out.andThen, hpre, hstep, hinv]
  have hexit : (mainInit env).exit = some e := by rw [hinit]
  have hmain : main env = mainInit env := main_of_mainInit_exit env e hexit
  have hmem : ∀ c ∈ (main env).calls, c.inInit = true ∨ ∃ u ∈ pre ++ [s], c = Call.fn u.1 := by
    intro c hc
    rw [hmain, hinit] at hc
    simp only [List.mem_append] at hc
    rcases hc with hc | hc
    · have := runSteps_calls (fun c => c.inInit = true ∨ ∃ u ∈ pre ++ [s], c = Call.fn u.1) pre
        (fun u hu => Or.inr ⟨u, by simp [hu], rfl⟩)
        (fun u hu g c hc => Or.inl (initSteps_body_inInit env u (by rw [hsplit]; simp [hu]) g c hc))
        Globals.init c hc
      exact this
    · simp only [invoke, List.mem_cons] at hc
      rcases hc with rfl | hc
      · exact Or.inr ⟨s, by simp, rfl⟩
      · exact Or.inl (initSteps_body_inInit env s (by rw [hsplit]; simp) _ c hc)
  have hnodup : ((pre ++ [s]).map Prod.fst ++ post.map Prod.fst).Nodup := by
    have h := initSteps_names env
    rw [hsplit] at h
    have h2 : (pre ++ [s]).map Prod.fst ++ post.map Prod.fst =
        (pre ++ s :: post).map Prod.fst := by simp
    rw [h2, h]
    decide
  refine ⟨by rw [hmain]; exact hexit, mainInit_exit env e hexit, ?_, ?_⟩
  · intro t ht hc
    rcases hmem _ hc with h1 | ⟨u, hu, h1⟩
    · simp [Call.inInit] at h1
    · have hfn : t.1 = u.1 := by injection h1
      have hdisj := (List.nodup_append.1 hnodup).2.2
      exact hdisj (List.mem_map_of_mem Prod.fst hu) (hfn ▸ List.mem_map_of_mem Prod.fst ht)
  · intro hc
    rcases hmem _ hc with h1 | ⟨u, hu, h1⟩
    · simp [Call.inInit] at h1
    · have hfn : Fn.drawFrame = u.1 := by injection h1
      have hu2 : u.1 ∈ (initSteps env).map Prod.fst :=
        List.mem_map_of_mem Prod.fst (by
          rw [hsplit]
          simp only [List.mem_append, List.mem_singleton, List.mem_cons] at hu ⊢
          tauto)
      rw [initSteps_names, ← hfn] at hu2
      simp at hu2

/-- A non-success result of a checked driver call ends its initialisation
function in failure: this holds for the instance, the debug messenger, the
logical device, the semaphores, the fence, the render pass, the shader modules,
the pipeline, the vertex buffer, the memory allocation and the begin and end of
the command buffer. -/
theorem checked_driver_failure_ends_step (env : Env) (g : Globals) :
    (env.vkCreateInstance.result ≠ VK_SUCCESS →
      ∃ e, (createInstance env g).exit = some e ∧ e.isFailure = true) ∧
    (checkValidationLayerSupport env = true → env.createDebugUtilsMessengerAddr = true →
      env.vkCreateDebugUtilsMessengerEXT.result ≠ VK_SUCCESS →
      ∃ e, (setupDebugMessenger env g).exit = some e ∧ e.isFailure = true) ∧
    (env.vkCreateDevice.result ≠ VK_SUCCESS →
      ∃ e, (createLogicalDevice env g).exit = some e ∧ e.isFailure = true) ∧
    (env.imageAvailableSemaphore.result ≠ VK_SUCCESS ∨
      env.renderFinishedSemaphore.result ≠ VK_SUCCESS ∨
      env.vkCreateFence.result ≠ VK_SUCCESS →
      ∃ e, (initSyncObjects env g).exit = some e ∧ e.isFailure = true) ∧
    (env.vkCreateRenderPass.result ≠ VK_SUCCESS →
      ∃ e, (createRenderPass env g).exit = some e ∧ e.isFailure = true) ∧
    (env.vkCreatePipelineLayout.result = VK_SUCCESS →
      env.vertShaderModule.result ≠ VK_SUCCESS ∨ env.fragShaderModule.result ≠ VK_SUCCESS ∨
        env.vkCreateGraphicsPipelines.result ≠ VK_SUCCESS →
      ∃ e, (createGraphicsPipeline env g).exit = some e ∧ e.isFailure = true) ∧
    (env.vkCreateBuffer.result ≠ VK_SUCCESS ∨ env.vkAllocateMemory.result ≠ VK_SUCCESS →
      ∃ e, (createVertexBuffer env g).exit = some e ∧ e.isFailure = true) ∧
    (env.vkBeginCommandBuffer ≠ VK_SUCCESS ∨ env.vkEndCommandBuffer ≠ VK_SUCCESS →
      ∃ e, (recordCommandBuffer env g).exit = some e ∧ e.isFailure = true) := by
  refine ⟨?_, ?_, ?_, ?_, ?_, ?_, ?_, ?_⟩
  · intro h
    exact ⟨Exit.exit 1, by simp [createInstance, h], rfl⟩
  · intro h1 h2 h3
    exact ⟨Exit.exit 1, by simp [setupDebugMessenger, h1, h2, h3], rfl⟩
  · intro h
    exact ⟨Exit.exit 1, by simp [createLogicalDevice, h], rfl⟩
  · intro h
    by_cases h1 : env.imageAvailableSemaphore.result = VK_SUCCESS
    · by_cases h2 : env.renderFinishedSemaphore.result = VK_SUCCESS
      · have h3 : env.vkCreateFence.result ≠ VK_SUCCESS := by tauto
        exact ⟨Exit.uncaught "failed to create fence!",
          by simp [initSyncObjects, h1, h2, h3], rfl⟩
      · exact ⟨Exit.uncaught "failed to create semaphores!",
          by simp [initSyncObjects, h1, h2], rfl⟩
    · exact ⟨Exit.uncaught "failed to create semaphores!", by simp [initSyncObjects, h1], rfl⟩
  · intro h
    exact ⟨Exit.exit (-1), by simp [createRenderPass, h], by decide⟩
  · intro hl h
    rcases createGraphicsPipeline_cases env g with ⟨cs, e, -, he, hc⟩ | ⟨hr, -⟩ |
      ⟨-, -, -, -, -, -, hc⟩ | ⟨-, -, hv, -, hf, hp, -⟩
    · exact ⟨e, by rw [hc], he⟩
    · exact absurd hl hr
    · exact ⟨Exit.exit 1, by rw [hc], rfl⟩
    · tauto
  · intro h
    by_cases h1 : env.vkCreateBuffer.result = VK_SUCCESS
    · have h2 : env.vkAllocateMemory.result ≠ VK_SUCCESS := by tauto
      exact ⟨Exit.uncaught "failed to allocate vertex buffer memory!",
        by simp [createVertexBuffer, h1, h2], rfl⟩
    · exact ⟨Exit.uncaught "failed to create vertex buffer!",
        by simp [createVertexBuffer, h1], rfl⟩
  · intro h
    by_cases h1 : env.vkBeginCommandBuffer = VK_SUCCESS
    · have h2 : env.vkEndCommandBuffer ≠ VK_SUCCESS := by tauto
      exact ⟨Exit.uncaught "failed to record command buffer!",
        by simp [recordCommandBuffer, h1, h2], rfl⟩
    · exact ⟨Exit.uncaught "failed to begin recording command buffer!",
        by simp [recordCommandBuffer, h1], rfl⟩

/-- The function `main` ends with status 0 exactly when the initialisation and
the loop both run to their end. -/
theorem main_returns_zero_iff (env : Env) :
    (main env).exit = some (Exit.returned 0) ↔
      (mainInit env).exit = none ∧
      (mainLoop env (initGlobals env) env.frames).exit = none := by
  rcases main_cases env with ⟨e, he, hm⟩ | ⟨hn, -, e, hle, hme, -⟩ | ⟨hn, -, hln, hr, -⟩
  · rw [hm, he]
    have := mainInit_exit env e he
    constructor
    · intro h
      cases h
      simp [Exit.isFailure] at this
    · rintro ⟨h, -⟩
      cases h
  · rw [hme, hle]
    have := mainLoop_exit env _ _ e hle
    constructor
    · intro h
      cases h
      simp [Exit.isFailure] at this
    · rintro ⟨-, h⟩
      cases h
  · exact ⟨fun _ => ⟨hn, hln⟩, fun _ => hr⟩

/-- C12, what the code does instead: a failing `vkCreatePipelineLayout` makes
`createGraphicsPipeline` return to `main`, and the result of
`vkBindBufferMemory` plays no part in how `createVertexBuffer` ends.  In the
runs `envLayoutFails` and `envBindFails` the later initialisation functions and
a frame are called and `main` returns 0.  For every other driver call of the
initialisation a non-success result ends the function in failure; a function
that ends the process ends `main` there, before any later function or frame;
and `main` ends with status 0 only by running to its end. -/
theorem init_failure_not_always_fatal :
    (∀ (env : Env) (g : Globals), env.vkCreatePipelineLayout.result ≠ VK_SUCCESS →
      (createGraphicsPipeline env g).exit = none) ∧
    (∀ (env : Env) (g : Globals),
      (createVertexBuffer env g).exit = none ↔
        env.vkCreateBuffer.result = VK_SUCCESS ∧ env.vkAllocateMemory.result = VK_SUCCESS) ∧
    envLayoutFails.vkCreatePipelineLayout.result ≠ VK_SUCCESS ∧
    (main envLayoutFails).calls[33]? = some (Call.vkCreatePipelineLayout 5) ∧
    (main envLayoutFails).calls[34]? = some (Call.fn Fn.createVertexBuffer) ∧
    (main envLayoutFails).calls[39]? = some (Call.fn Fn.recordCommandBuffer) ∧
    (main envLayoutFails).calls[48]? = some (Call.fn Fn.drawFrame) ∧
    (main envLayoutFails).exit = some (Exit.returned 0) ∧
    envBindFails.vkBindBufferMemory ≠ VK_SUCCESS ∧
    (main envBindFails).calls[45]? = some (Call.vkBindBufferMemory 5 15 16 0) ∧
    (main envBindFails).calls[46]? = some (Call.fn Fn.recordCommandBuffer) ∧
    (main envBindFails).calls[55]? = some (Call.fn Fn.drawFrame) ∧
    (main envBindFails).exit = some (Exit.returned 0) ∧
    (∀ (env : Env) (g : Globals),
      (env.vkCreateInstance.result ≠ VK_SUCCESS →
        ∃ e, (createInstance env g).exit = some e ∧ e.isFailure = true) ∧
      (checkValidationLayerSupport env = true → env.createDebugUtilsMessengerAddr = true →
        env.vkCreateDebugUtilsMessengerEXT.result ≠ VK_SUCCESS →
        ∃ e, (setupDebugMessenger env g).exit = some e ∧ e.isFailure = true) ∧
      (env.vkCreateDevice.result ≠ VK_SUCCESS →
        ∃ e, (createLogicalDevice env g).exit = some e ∧ e.isFailure = true) ∧
      (env.imageAvailableSemaphore.result ≠ VK_SUCCESS ∨
        env.renderFinishedSemaphore.result ≠ VK_SUCCESS ∨
        env.vkCreateFence.result ≠ VK_SUCCESS →
        ∃ e, (initSyncObjects env g).exit = some e ∧ e.isFailure = true) ∧
      (env.vkCreateRenderPass.result ≠ VK_SUCCESS →
        ∃ e, (createRenderPass env g).exit = some e ∧ e.isFailure = true) ∧
      (env.vkCreatePipelineLayout.result = VK_SUCCESS →
        env.vertShaderModule.result ≠ VK_SUCCESS ∨ env.fragShaderModule.result ≠ VK_SUCCESS ∨
          env.vkCreateGraphicsPipelines.result ≠ VK_SUCCESS →
        ∃ e, (createGraphicsPipeline env g).exit = some e ∧ e.isFailure = true) ∧
      (env.vkCreateBuffer.result ≠ VK_SUCCESS ∨ env.vkAllocateMemory.result ≠ VK_SUCCESS →
        ∃ e, (createVertexBuffer env g).exit = some e ∧ e.isFailure = true) ∧
      (env.vkBeginCommandBuffer ≠ VK_SUCCESS ∨ env.vkEndCommandBuffer ≠ VK_SUCCESS →
        ∃ e, (recordCommandBuffer env g).exit = some e ∧ e.isFailure = true)) ∧
    (∀ (env : Env) (pre post : List (Fn × (Globals → Out))) (s : Fn × (Globals → Out))
      (e : Exit), initSteps env = pre ++ s :: post →
      (runSteps pre Globals.init).exit = none →
      (s.2 (runSteps pre Globals.init).g).exit = some e →
      (main env).exit = some e ∧ e.isFailure = true ∧
      (∀ t ∈ post, Call.fn t.1 ∉ (main env).calls) ∧
      Call.fn Fn.drawFrame ∉ (main env).calls) ∧
    (∀ (env : Env) (e : Exit), (main env).exit = some e →
      e = Exit.returned 0 ∨ e.isFailure = true) ∧
    (∀ env : Env, (main env).exit = some (Exit.returned 0) ↔
      (mainInit env).exit = none ∧
      (mainLoop env (initGlobals env) env.frames).exit = none) := by
  refine ⟨?_, ?_, by decide, rfl, rfl, rfl, rfl, by decide, by decide, rfl, rfl, rfl,
    by decide, checked_driver_failure_ends_step, step_exit_stops_main, ?_,
    main_returns_zero_iff⟩
  · intro env g h
    simp [createGraphicsPipeline, h]
  · intro env g
    by_cases h1 : env.vkCreateBuffer.result = VK_SUCCESS <;>
      by_cases h2 : env.vkAllocateMemory.result = VK_SUCCESS <;>
      simp [createVertexBuffer, h1, h2]
  · intro env e he
    rcases main_cases env with ⟨e1, he1, hm⟩ | ⟨-, -, e1, hle, hme, -⟩ | ⟨-, -, -, hr, -⟩
    · rw [hm, he1] at he
      cases he
      exact Or.inr (mainInit_exit env _ he1)
    · rw [hme] at he
      cases he
      exact Or.inr (mainLoop_exit env _ _ _ hle)
    · rw [hr] at he
      cases he
      exact Or.inl rfl

/-! ## Vertex layout -/

/-- C13, what the code does instead: the one vertex binding of the pipeline has
stride 4 bytes, one float, not the 12 bytes of its attribute of three 32-bit
floats.  The rest is as claimed: per-vertex input rate, one attribute at
location 0 of format `VK_FORMAT_R32G32B32_SFLOAT` at offset 0, a vertex buffer
of 9 floats, 36 bytes, three attributes long, and one draw of 9 / 3 = 3
vertices, one instance, first vertex 0.  At stride 4 the three vertices drawn
start at bytes 0, 4 and 8 of the buffer instead of 0, 12 and 24. -/
theorem vertex_binding_stride_is_one_float :
    (∀ (g : Globals) (vertShaderModule fragShaderModule : Handle),
      (pipelineInfo g vertShaderModule fragShaderModule).bindingDescriptions =
        [{ binding := 0, stride := 4, inputRate := VK_VERTEX_INPUT_RATE_VERTEX }] ∧
      (pipelineInfo g vertShaderModule fragShaderModule).attributeDescriptions =
        [{ location := 0, binding := 0, format := VK_FORMAT_R32G32B32_SFLOAT, offset := 0 }]) ∧
    sizeofR32G32B32 = 12 ∧
    bindingDescription.stride = 4 ∧
    bindingDescription.stride ≠ sizeofR32G32B32 ∧
    bindingDescription.stride = sizeofFloat ∧
    vertices.length = 9 ∧
    bufferSize = 36 ∧
    bufferSize = 3 * sizeofR32G32B32 ∧
    (∀ (env : Env) (g : Globals), env.vkBeginCommandBuffer = VK_SUCCESS →
      (recordCommandBuffer env g).calls[4]? = some (Call.vkCmdDraw g.commandBuffer 3 1 0 0)) ∧
    (main envOk).calls[38]? = some (Call.vkCreateGraphicsPipelines 5
      { stages := [12, 13],
        bindingDescriptions := [{ binding := 0, stride := 4, inputRate := 0 }],
        attributeDescriptions := [{ location := 0, binding := 0, format := 106, offset := 0 }],
        layout := 11, renderPass := 10 }) ∧
    (main envOk).calls[42]? = some (Call.vkCreateBuffer 5 36) ∧
    (main envOk).calls[51]? = some (Call.vkCmdDraw 0 3 1 0 0) ∧
    (List.range 3).map (fun i => i * bindingDescription.stride) = [0, 4, 8] ∧
    (List.range 3).map (fun i => i * sizeofR32G32B32) = [0, 12, 24] := by
  refine ⟨fun _ _ _ => ⟨rfl, rfl⟩, by decide, rfl, by decide, rfl, rfl, by decide, by decide,
    ?_, rfl, rfl, rfl, by decide, by decide⟩
  intro env g h
  simp [recordCommandBuffer, h, vertices]

end VulkanTest
